import Mathlib

/-!
Shallow embedding of the Physis asset library (Rust) for verification of the
specification claims.  Source files embedded: src/tex.rs, src/equipment.rs,
src/race.rs, src/gamedata.rs, src/model.rs.  Modules of the repository that
are not present under src/ (repository.rs, sqpack.rs, index.rs,
model_vertex_declarations.rs and the define_race_enum macro) are modelled
from the specification where a claim needs them; each such definition is
marked in its doc comment.

Machine integers are modelled as Nat with explicit reductions modulo 2^w at
the operations where Rust wrapping semantics matter.  Byte buffers are
List Nat (each entry one byte).  f32 values that are only moved around (never
computed with) are modelled as their 32-bit patterns (Nat).
-/

/-- Wrap a natural number to u32 range, modelling Rust u32 wrapping
arithmetic. -/
def w32 (n : Nat) : Nat := n % 4294967296

/-- Wrap a natural number to u16 range, modelling a Rust `as u16` cast. -/
def w16 (n : Nat) : Nat := n % 65536

/-- Byte (u8) at index `i` of a buffer, 0 when out of range. -/
def byteAt (b : List Nat) (i : Nat) : Nat := (b.getD i 0) % 256

/-- Little-endian u16 at index `i` of a byte buffer. -/
def u16At (b : List Nat) (i : Nat) : Nat :=
  byteAt b i + 256 * byteAt b (i + 1)

/-- Little-endian u32 at index `i` of a byte buffer. -/
def u32At (b : List Nat) (i : Nat) : Nat :=
  byteAt b i + 256 * byteAt b (i + 1) + 65536 * byteAt b (i + 2) +
    16777216 * byteAt b (i + 3)

/-- The index-buffer padding computed in `MDL::replace_vertices`
(src/model.rs): `16 - size % 16`, replaced by 0 when the remainder is 0. -/
def padTo16 (n : Nat) : Nat :=
  if n % 16 = 0 then n else n + (16 - n % 16)

/- ## Texture codec (src/tex.rs) -/

/-- The texture formats accepted by the `TextureFormat` enum in src/tex.rs
(binrw `repr = u32`): B8G8R8A8 = 0x1450, BC1 = 0x3420, BC3 = 0x3431,
BC5 = 0x6230.  Any other u32 makes the header parse fail. -/
inductive TextureFormat where
  | B8G8R8A8
  | BC1
  | BC3
  | BC5
deriving DecidableEq, Repr

/-- Decode of the on-disk u32 format tag, as performed by binrw for the
`TextureFormat` enum in src/tex.rs. -/
def textureFormatOfCode (code : Nat) : Option TextureFormat :=
  if code = 0x1450 then some TextureFormat.B8G8R8A8
  else if code = 0x3420 then some TextureFormat.BC1
  else if code = 0x3431 then some TextureFormat.BC3
  else if code = 0x6230 then some TextureFormat.BC5
  else none

/-- `TexHeader` of src/tex.rs: attribute bits, format, width, height, depth,
mip levels, 3 lod offsets, 13 surface offsets.  80 bytes on disk, and
`size_of::<TexHeader>()` is also 80 (all fields are naturally aligned). -/
structure TexHeader where
  /-- The `attribute` bitfield of the source struct (renamed, the source
  field name is a Lean keyword). -/
  attribute_bits : Nat
  format : TextureFormat
  width : Nat
  height : Nat
  depth : Nat
  mip_levels : Nat
  lod_offsets : List Nat
  offset_to_surface : List Nat
deriving DecidableEq, Repr

/-- Size in bytes of `TexHeader`, both on disk and via Rust
`std::mem::size_of` (the code uses the latter for the seek). -/
def texHeaderSize : Nat := 80

/-- Parse of `TexHeader::read` (binrw, little endian) from a byte buffer.
Fails when the buffer is shorter than the header or the format tag is not
one of the four enum values; every other field accepts any bits. -/
def TexHeader.read (b : List Nat) : Option TexHeader :=
  if b.length < texHeaderSize then none
  else
    match textureFormatOfCode (u32At b 4) with
    | none => none
    | some f =>
      some { attribute_bits := u32At b 0
             format := f
             width := u16At b 8
             height := u16At b 10
             depth := u16At b 12
             mip_levels := u16At b 14
             lod_offsets := [u32At b 16, u32At b 20, u32At b 24]
             offset_to_surface := (List.range 13).map fun i => u32At b (28 + 4 * i) }

/-- The `Texture` result struct of src/tex.rs. -/
structure Texture where
  width : Nat
  height : Nat
  rgba : List Nat
deriving DecidableEq, Repr

/-- A block-compression decoder in the shape of `texpresso::Format::decompress`
(external crate): it receives the compressed source, the pixel dimensions and
the destination buffer, and fills the destination in place.  Because the Rust
API mutates a fixed-size slice, any faithful instance is length preserving on
the destination. -/
def DecompressFn : Type :=
  TextureFormat → List Nat → Nat → Nat → List Nat → List Nat

/-- `Texture::from_existing` of src/tex.rs, parameterised by the external
texpresso decoder.  Reads the header (fails softly via Option), seeks past it,
takes the remaining `buffer.len() - size_of::<TexHeader>()` bytes (the
subtraction cannot underflow: the header parse already consumed 80 bytes),
then dispatches on the format: BGRA8 passes the body through, each BC format
allocates a `width * height * 4` byte RGBA buffer and decompresses into it. -/
def Texture.from_existing (dec : DecompressFn) (buffer : List Nat) : Option Texture :=
  match TexHeader.read buffer with
  | none => none
  | some header =>
    let src := buffer.drop texHeaderSize
    let dst : List Nat :=
      match header.format with
      | TextureFormat.B8G8R8A8 => src
      | TextureFormat.BC1 =>
        dec TextureFormat.BC1 src header.width header.height
          (List.replicate (header.width * header.height * 4) 0)
      | TextureFormat.BC3 =>
        dec TextureFormat.BC3 src header.width header.height
          (List.replicate (header.width * header.height * 4) 0)
      | TextureFormat.BC5 =>
        dec TextureFormat.BC5 src header.width header.height
          (List.replicate (header.width * header.height * 4) 0)
    some { width := header.width, height := header.height, rgba := dst }

/- ## Race and equipment path helpers (src/race.rs, src/equipment.rs) -/

/-- Gender of the character (src/race.rs). -/
inductive Gender where
  | Male
  | Female
deriving DecidableEq, Repr

/-- Subraces (src/race.rs). -/
inductive Subrace where
  | Midlander
  | Highlander
  | Wildwood
  | Duskwight
  | Plainsfolk
  | Dunesfolk
  | Seeker
  | Keeper
  | SeaWolf
  | Hellsguard
  | Raen
  | Xaela
  | Hellion
  | Lost
  | Rava
  | Veena
deriving DecidableEq, Repr

/-- The major races (src/race.rs). -/
inductive Race where
  | Hyur
  | Elezen
  | Lalafell
  | Miqote
  | Roegadyn
  | AuRa
  | Hrothgar
  | Viera
deriving DecidableEq, Repr

/-- `get_race_id` built from the table inside `define_race_enum!` in
src/race.rs: Hyur distinguishes the Midlander and Highlander subraces, every
other race maps both of its subraces to one id per gender (the doc comment in
src/race.rs states the two subraces are identical down to the ids).  The
`define_race_enum` macro itself is not under src/; combinations outside the
table are modelled as `none` (the source would panic through `unwrap`). -/
def get_race_id (race : Race) (subrace : Subrace) (gender : Gender) : Option Nat :=
  match race, subrace, gender with
  | Race.Hyur, Subrace.Midlander, Gender.Male => some 101
  | Race.Hyur, Subrace.Midlander, Gender.Female => some 201
  | Race.Hyur, Subrace.Highlander, Gender.Male => some 301
  | Race.Hyur, Subrace.Highlander, Gender.Female => some 401
  | Race.Hyur, _, _ => none
  | Race.Elezen, _, Gender.Male => some 501
  | Race.Elezen, _, Gender.Female => some 601
  | Race.Miqote, _, Gender.Male => some 701
  | Race.Miqote, _, Gender.Female => some 801
  | Race.Roegadyn, _, Gender.Male => some 901
  | Race.Roegadyn, _, Gender.Female => some 1001
  | Race.Lalafell, _, Gender.Male => some 1101
  | Race.Lalafell, _, Gender.Female => some 1201
  | Race.AuRa, _, Gender.Male => some 1301
  | Race.AuRa, _, Gender.Female => some 1401
  | Race.Hrothgar, _, Gender.Male => some 1501
  | Race.Hrothgar, _, Gender.Female => some 1601
  | Race.Viera, _, Gender.Male => some 1701
  | Race.Viera, _, Gender.Female => some 1801

/-- The equipment slots (src/equipment.rs). -/
inductive Slot where
  | Head
  | Hands
  | Legs
  | Feet
  | Body
  | Earring
  | Neck
  | Rings
  | Wrists
deriving DecidableEq, Repr

/-- `get_slot_abbreviation` of src/equipment.rs. -/
def get_slot_abbreviation (slot : Slot) : String :=
  match slot with
  | Slot.Head => "met"
  | Slot.Hands => "glv"
  | Slot.Legs => "dwn"
  | Slot.Feet => "sho"
  | Slot.Body => "top"
  | Slot.Earring => "ear"
  | Slot.Neck => "nek"
  | Slot.Rings => "rir"
  | Slot.Wrists => "wrs"

/-- `get_slot_from_id` of src/equipment.rs. -/
def get_slot_from_id (id : Int) : Option Slot :=
  if id = 3 then some Slot.Head
  else if id = 5 then some Slot.Hands
  else if id = 7 then some Slot.Legs
  else if id = 8 then some Slot.Feet
  else if id = 4 then some Slot.Body
  else if id = 9 then some Slot.Earring
  else if id = 10 then some Slot.Neck
  else if id = 12 then some Slot.Rings
  else if id = 11 then some Slot.Wrists
  else none

/-- Zero-padded decimal rendering of width 4, the semantics of the Rust
format specifier of width 4 with a zero fill for a non-negative value.
The source field is i32; the model covers the non-negative ids that occur in
game paths (the formatting of the two agrees there). -/
def pad4 (n : Nat) : String :=
  let s := toString n
  if s.length < 4 then String.mk (List.replicate (4 - s.length) '0') ++ s else s

/-- `build_equipment_path` of src/equipment.rs.  The source calls
`get_race_id(...).unwrap()`; the unwrap panic on an id outside the race table
is modelled as `none`. -/
def build_equipment_path (model_id : Nat) (race : Race) (subrace : Subrace)
    (gender : Gender) (slot : Slot) : Option String :=
  (get_race_id race subrace gender).map fun race_id =>
    "chara/equipment/e" ++ pad4 model_id ++ "/model/c" ++ pad4 race_id ++
      "e" ++ pad4 model_id ++ "_" ++ get_slot_abbreviation slot ++ ".mdl"

example : build_equipment_path 0 Race.Hyur Subrace.Midlander Gender.Male Slot.Body =
    some "chara/equipment/e0000/model/c0101e0000_top.mdl" := by decide

/- ## Repositories, categories and the GameData facade (src/gamedata.rs) -/

/-- Modelled from the spec: the asset categories of section 3 (repository.rs
is not under src/). -/
inductive Category where
  | Common
  | BGCommon
  | BG
  | Cut
  | Chara
  | Shader
  | UI
  | Sound
  | VFX
  | UIScript
  | EXD
  | GameScript
  | Music
  | SqpackTest
  | Debug
deriving DecidableEq, Repr

/-- Modelled from the spec: `string_to_category` of repository.rs (not under
src/), mapping the lowercase category names of section 3 to categories; any
other string yields none. -/
def string_to_category (name : String) : Option Category :=
  if name = "common" then some Category.Common
  else if name = "bgcommon" then some Category.BGCommon
  else if name = "bg" then some Category.BG
  else if name = "cut" then some Category.Cut
  else if name = "chara" then some Category.Chara
  else if name = "shader" then some Category.Shader
  else if name = "ui" then some Category.UI
  else if name = "sound" then some Category.Sound
  else if name = "vfx" then some Category.VFX
  else if name = "ui_script" then some Category.UIScript
  else if name = "exd" then some Category.EXD
  else if name = "game_script" then some Category.GameScript
  else if name = "music" then some Category.Music
  else if name = "sqpack_test" then some Category.SqpackTest
  else if name = "debug" then some Category.Debug
  else none

/-- Modelled from the spec: the stable small integer code of each category
used to form on-disk pack filenames (section 3; the code table itself lives
in repository.rs, not under src/). -/
def categoryCode (c : Category) : Nat :=
  match c with
  | Category.Common => 0x00
  | Category.BGCommon => 0x01
  | Category.BG => 0x02
  | Category.Cut => 0x03
  | Category.Chara => 0x04
  | Category.Shader => 0x05
  | Category.UI => 0x06
  | Category.Sound => 0x07
  | Category.VFX => 0x08
  | Category.UIScript => 0x09
  | Category.EXD => 0x0a
  | Category.GameScript => 0x0b
  | Category.Music => 0x0c
  | Category.SqpackTest => 0x12
  | Category.Debug => 0x13

/-- Lowercase hexadecimal digit. -/
def hexDigit (n : Nat) : Char :=
  if n < 10 then Char.ofNat (48 + n) else Char.ofNat (87 + n)

/-- Two-digit lowercase hexadecimal rendering (the Rust 02x format). -/
def hex2 (n : Nat) : String :=
  String.mk [hexDigit (n / 16 % 16), hexDigit (n % 16)]

/-- Modelled from the spec: a repository (section 3; repository.rs is not
under src/).  Only the name is consumed by the embedded gamedata.rs code. -/
structure Repository where
  name : String
deriving DecidableEq, Repr

instance : Inhabited Repository := ⟨⟨""⟩⟩

/-- Modelled from the spec: `Repository::index_filename` (section 4.4),
PC platform. -/
def Repository.index_filename (_r : Repository) (c : Category) : String :=
  hex2 (categoryCode c) ++ "0000.win32.index"

/-- Modelled from the spec: `Repository::dat_filename` (section 4.4). -/
def Repository.dat_filename (_r : Repository) (c : Category) (id : Nat) : String :=
  hex2 (categoryCode c) ++ "0000.win32.dat" ++ toString id

/-- One CRC-32 bit step: reflected polynomial 0xEDB88320 (spec section 4.1). -/
def crc32Step (c : Nat) : Nat :=
  if c % 2 = 1 then (c / 2) ^^^ 0xEDB88320 else c / 2

/-- Modelled from the spec: reflected CRC-32 over a byte list
(section 4.1; the hashing code of sqpack.rs is not under src/). -/
def crc32 (bytes : List Nat) : Nat :=
  (bytes.foldl
    (fun c b => (List.range 8).foldl (fun c2 _ => crc32Step c2) (c ^^^ b % 256))
    0xFFFFFFFF) ^^^ 0xFFFFFFFF

/-- Split a string at its final slash: `(folder, file)`; the folder is empty
when no slash is present (spec section 4.1). -/
def splitAtLastSlash (s : String) : String × String :=
  let cs := s.toList
  if cs.contains '/' then
    let fileLen := (cs.reverse.takeWhile (fun c => c ≠ '/')).length
    (String.mk (cs.take (cs.length - fileLen - 1)),
     String.mk (cs.drop (cs.length - fileLen)))
  else ("", s)

/-- Modelled from the spec: `calculate_hash` of sqpack.rs (not under src/),
section 4.1: lowercase, split at the final slash, CRC-32 each half,
concatenate the folder hash into the high 32 bits.  Paths are ASCII, so the
byte sequence is the character code sequence. -/
def calculate_hash (path : String) : Nat :=
  let lowercased := path.toLower
  let parts := splitAtLastSlash lowercased
  crc32 (parts.1.toList.map Char.toNat) * 4294967296 +
    crc32 (parts.2.toList.map Char.toNat)

/-- Modelled from the spec: one entry of a parsed index file
(section 3; index.rs is not under src/). -/
structure IndexEntry where
  hash : Nat
  bitfield : Nat
deriving DecidableEq, Repr

/-- Bitfield decode of the data file id (spec section 4.2). -/
def IndexEntry.data_file_id (e : IndexEntry) : Nat := e.bitfield / 2 % 8

/-- Bitfield decode of the offset (spec section 4.2): clear the low four bits
and multiply by 8. -/
def IndexEntry.offset (e : IndexEntry) : Nat := (e.bitfield - e.bitfield % 16) * 8

/-- Modelled from the spec: a parsed index file (section 4.2). -/
structure IndexFile where
  entries : List IndexEntry
deriving DecidableEq, Repr

/-- The `GameData` facade of src/gamedata.rs.  `index_files` is the memoized
cache.  The two oracle fields stand for the file system reads performed by
the missing modules: `index_oracle` models `IndexFile::from_existing` on a
given index path (none = the file cannot be read and parsed), and
`dat_open`/`dat_read` model `DatFile::from_existing` and
`DatFile::read_from_offset`. -/
structure GameData where
  game_directory : String
  repositories : List Repository
  index_files : List (String × IndexFile)
  index_oracle : String → Option IndexFile
  dat_open : String → Bool
  dat_read : String → Nat → Option (List Nat)

/-- Split a character list at every slash (the semantics of the Rust
`str::split` with separator slash, including empty pieces). -/
def splitSlash : List Char → List (List Char)
  | [] => [[]]
  | c :: rest =>
    if c = '/' then [] :: splitSlash rest
    else
      match splitSlash rest with
      | [] => [[c]]
      | h :: t => (c :: h) :: t

/-- The token list produced by the slash split of the Rust source, used by
`GameData::parse_repository_category`. -/
def splitPath (s : String) : List String := (splitSlash s.data).map String.mk

/-- `GameData::parse_repository_category` of src/gamedata.rs: split the path
on slashes; fewer than two tokens is none; the first repository whose name
equals the first token wins, with the second token then required to be a
category; otherwise the first token must itself be a category and the
repository is `repositories[0]`.  The source indexes `repositories[0]`
directly (a panic on an empty repository list); the model returns the
default repository in that unreachable-by-claims case. -/
def GameData.parse_repository_category (g : GameData) (path : String) :
    Option (Repository × Category) :=
  if (splitPath path).length < 2 then none
  else
    match g.repositories.find?
        (fun r => r.name == (splitPath path).getD 0 "") with
    | some repository =>
      (string_to_category ((splitPath path).getD 1 "")).map fun c => (repository, c)
    | none =>
      (string_to_category ((splitPath path).getD 0 "")).map fun c =>
        (g.repositories.getD 0 default, c)

/-- `GameData::get_index_filename` of src/gamedata.rs.  The source unwraps
the parse result (panicking on none); the panic is modelled as the error
branch of Except at the call sites, so this helper takes the parsed pair. -/
def GameData.index_path_for (g : GameData) (repository : Repository)
    (category : Category) : String :=
  String.intercalate "/"
    [g.game_directory, "sqpack", repository.name,
     repository.index_filename category]

/-- The index file available to `exists`/`extract` after `cache_index_file`:
the memoized entry when present, otherwise the parse of the file on disk
(`IndexFile::from_existing`), whose failure the source unwraps into a panic. -/
def GameData.cached_or_parsed_index (g : GameData) (index_path : String) :
    Option IndexFile :=
  match g.index_files.find? (fun p => p.1 == index_path) with
  | some p => some p.2
  | none => g.index_oracle index_path

/-- `GameData::exists` of src/gamedata.rs (named `existsFile` here because
`exists` is a Lean keyword).  The Except error branch models a Rust panic:
`get_index_filename` unwraps the path parse, and `cache_index_file` unwraps
the index file parse. -/
def GameData.existsFile (g : GameData) (path : String) : Except String Bool :=
  let hash := calculate_hash path
  match g.parse_repository_category path with
  | none => Except.error "called Option.unwrap on a None value"
  | some (repository, category) =>
    let index_path := g.index_path_for repository category
    match g.cached_or_parsed_index index_path with
    | none => Except.error "called Result.unwrap on an Err value"
    | some index_file =>
      Except.ok (index_file.entries.any (fun s => s.hash == hash))

/-- `GameData::get_dat_file` of src/gamedata.rs, taking the already parsed
repository and category (the source re-parses and unwraps; at its call site
the parse has already succeeded). -/
def GameData.get_dat_file (g : GameData) (repository : Repository)
    (category : Category) (data_file_id : Nat) : Option String :=
  let dat_path := String.intercalate "/"
    [g.game_directory, "sqpack", repository.name,
     repository.dat_filename category data_file_id]
  if g.dat_open dat_path then some dat_path else none

/-- `GameData::extract` of src/gamedata.rs.  The Except error branch models
the same two panic sites as `existsFile`; the inner Option is the value the
function returns when it does not panic (none when the hash has no entry or
the dat file cannot be opened or decoded). -/
def GameData.extract (g : GameData) (path : String) :
    Except String (Option (List Nat)) :=
  let hash := calculate_hash path
  match g.parse_repository_category path with
  | none => Except.error "called Option.unwrap on a None value"
  | some (repository, category) =>
    let index_path := g.index_path_for repository category
    match g.cached_or_parsed_index index_path with
    | none => Except.error "called Result.unwrap on an Err value"
    | some index_file =>
      match index_file.entries.find? (fun s => s.hash == hash) with
      | none => Except.ok none
      | some entry =>
        match g.get_dat_file repository category entry.data_file_id with
        | none => Except.ok none
        | some dat_path => Except.ok (g.dat_read dat_path entry.offset)

/- ## Repository repair (src/gamedata.rs) -/

/-- `RepairAction` of src/gamedata.rs. -/
inductive RepairAction where
  | VersionFileMissing
  | VersionFileCanRestore
deriving DecidableEq, Repr

instance : Inhabited RepairAction := ⟨RepairAction.VersionFileMissing⟩

/-- Abstract file-system state for `perform_repair`.  The repair code only
touches, per repository name: the repository directory
(`<game>/sqpack/<name>`), its backup version file `<name>.bck` and its
version file `<name>.ver`; the state is therefore keyed by repository name.
The three `...Fails` oracles decide whether the corresponding std::fs call
fails (std::fs itself is outside the repository). -/
structure RepairFS where
  removeFails : String → Bool
  createFails : String → Bool
  writeFails : String → Bool
  bck : String → Option String
  ver : List (String × String)

/-- `std::fs::remove_dir_all` on a repository directory: failure per oracle;
success deletes everything under the directory, in particular the
repository version file. -/
def RepairFS.removeDirAll (fs : RepairFS) (name : String) : Option RepairFS :=
  if fs.removeFails name then none
  else some { fs with ver := fs.ver.filter (fun p => p.1 ≠ name) }

/-- `std::fs::create_dir_all` on a repository directory. -/
def RepairFS.createDirAll (fs : RepairFS) (name : String) : Option RepairFS :=
  if fs.createFails name then none else some fs

/-- `std::fs::write` of the version file of a repository. -/
def RepairFS.writeVer (fs : RepairFS) (name content : String) : Option RepairFS :=
  if fs.writeFails name then none
  else some { fs with ver := (name, content) :: fs.ver.filter (fun p => p.1 ≠ name) }

/-- Whether the version file of `name` exists with content `content`. -/
def RepairFS.hasVer (fs : RepairFS) (name : String) : Prop :=
  ∃ content, (fs.ver.find? (fun p => p.1 == name)) = some (name, content)

/-- The sentinel version written for a missing version file
(src/gamedata.rs). -/
def earliestVersion : String := "2012.01.01.0000.0000"

/-- One iteration of the `perform_repair` loop of src/gamedata.rs for a
single `(repository, action)` pair.  Any failing file-system step aborts
with the error immediately, leaving the state as mutated so far (the source
propagates `RepairError::FailedRepair(repository)` with `?` and performs no
rollback). -/
def repairOne (fs : RepairFS) (repository : Repository) (action : RepairAction) :
    Except Repository Unit × RepairFS :=
  match action with
  | RepairAction.VersionFileMissing =>
    match fs.removeDirAll repository.name with
    | none => (Except.error repository, fs)
    | some fs1 =>
      match fs1.createDirAll repository.name with
      | none => (Except.error repository, fs1)
      | some fs2 =>
        match fs2.writeVer repository.name earliestVersion with
        | none => (Except.error repository, fs2)
        | some fs3 => (Except.ok (), fs3)
  | RepairAction.VersionFileCanRestore =>
    match fs.bck repository.name with
    | none => (Except.error repository, fs)
    | some new_version =>
      match fs.writeVer repository.name new_version with
      | none => (Except.error repository, fs)
      | some fs1 => (Except.ok (), fs1)

/-- `GameData::perform_repair` of src/gamedata.rs: process the
`(repository, action)` list in order, stopping at the first failing
repository. -/
def perform_repair (fs : RepairFS) :
    List (Repository × RepairAction) → Except Repository Unit × RepairFS
  | [] => (Except.ok (), fs)
  | (repository, action) :: rest =>
    match repairOne fs repository action with
    | (Except.ok _, fs1) => perform_repair fs1 rest
    | (Except.error e, fs1) => (Except.error e, fs1)

/- ## Model codec (src/model.rs) -/

/-- Modelled from the spec: the vertex usages of the dispatch matrix in
section 4.7 (model_vertex_declarations.rs is not under src/); exactly the
usages matched in src/model.rs. -/
inductive VertexUsage where
  | Position
  | BlendWeights
  | BlendIndices
  | Normal
  | UV
  | Tangent
  | BiTangent
  | Color
deriving DecidableEq, Repr

/-- Modelled from the spec: the vertex element types referenced by
src/model.rs (model_vertex_declarations.rs is not under src/).  Half4 is
four half floats (8 bytes), Single3/Single4 are three/four f32
(12/16 bytes), ByteFloat4 and UInt are four bytes. -/
inductive VertexType where
  | Single3
  | Single4
  | UInt
  | ByteFloat4
  | Half4
deriving DecidableEq, Repr

/-- Modelled from the spec: one vertex declaration element
`(stream, offset, type, usage)` (section 3). -/
structure VertexElement where
  stream : Nat
  offset : Nat
  vertex_type : VertexType
  vertex_usage : VertexUsage
deriving DecidableEq, Repr

/-- Modelled from the spec: a per-mesh vertex declaration (section 3). -/
structure VertexDeclaration where
  elements : List VertexElement
deriving DecidableEq, Repr

/-- Bytes consumed from the vertex buffer by `MDL::from_existing`
(src/model.rs) for one element, following its `(usage, type)` dispatch:
read_half4 consumes 8, read_single3 12, read_single4 16, read_byte_float4,
read_uint and read_tangent 4.  `none` models the panicking default
branches. -/
def readElementSize (usage : VertexUsage) (ty : VertexType) : Option Nat :=
  match usage, ty with
  | VertexUsage.Position, VertexType.Half4 => some 8
  | VertexUsage.Position, VertexType.Single3 => some 12
  | VertexUsage.BlendWeights, VertexType.ByteFloat4 => some 4
  | VertexUsage.BlendIndices, VertexType.UInt => some 4
  | VertexUsage.Normal, VertexType.Half4 => some 8
  | VertexUsage.Normal, VertexType.Single3 => some 12
  | VertexUsage.UV, VertexType.Half4 => some 8
  | VertexUsage.UV, VertexType.Single4 => some 16
  | VertexUsage.BiTangent, VertexType.ByteFloat4 => some 4
  | VertexUsage.Color, VertexType.ByteFloat4 => some 4
  | _, _ => none

/-- Bytes emitted into the vertex buffer by `MDL::write_to_buffer`
(src/model.rs) for one element: the Position/Half4 branch calls
`MDL::write_single4` (four f32, 16 bytes) on the padded position, while
every other branch writes with the encoder matching its reader
(write_half4 8, write_single3 12, write_single4 16, write_byte_float4,
write_uint and write_tangent 4). -/
def writeElementSize (usage : VertexUsage) (ty : VertexType) : Option Nat :=
  match usage, ty with
  | VertexUsage.Position, VertexType.Half4 => some 16
  | VertexUsage.Position, VertexType.Single3 => some 12
  | VertexUsage.BlendWeights, VertexType.ByteFloat4 => some 4
  | VertexUsage.BlendIndices, VertexType.UInt => some 4
  | VertexUsage.Normal, VertexType.Half4 => some 8
  | VertexUsage.Normal, VertexType.Single3 => some 12
  | VertexUsage.UV, VertexType.Half4 => some 8
  | VertexUsage.UV, VertexType.Single4 => some 16
  | VertexUsage.BiTangent, VertexType.ByteFloat4 => some 4
  | VertexUsage.Color, VertexType.ByteFloat4 => some 4
  | _, _ => none

/-- `ModelFileHeader` of src/model.rs.  Numeric fields are Nat images of the
Rust u32/u16/u8 fields; the fixed [u32; 3] arrays are length-3 lists. -/
structure ModelFileHeader where
  version : Nat
  stack_size : Nat
  runtime_size : Nat
  vertex_declaration_count : Nat
  material_count : Nat
  vertex_offsets : List Nat
  index_offsets : List Nat
  vertex_buffer_size : List Nat
  index_buffer_size : List Nat
  lod_count : Nat
  index_buffer_streaming_enabled : Bool
  has_edge_geometry : Bool
  vertex_declarations : List VertexDeclaration
deriving DecidableEq, Repr

/-- `ModelHeader` of src/model.rs (f32 fields carried as 32-bit patterns,
flag enums as their u8 representations). -/
structure ModelHeader where
  string_count : Nat
  string_size : Nat
  strings : List Nat
  radius : Nat
  mesh_count : Nat
  attribute_count : Nat
  submesh_count : Nat
  material_count : Nat
  bone_count : Nat
  bone_table_count : Nat
  shape_count : Nat
  shape_mesh_count : Nat
  shape_value_count : Nat
  lod_count : Nat
  flags1 : Nat
  element_id_count : Nat
  terrain_shadow_mesh_count : Nat
  flags2 : Nat
  model_clip_out_of_distance : Nat
  shadow_clip_out_of_distance : Nat
  terrain_shadow_submesh_count : Nat
  bg_change_material_index : Nat
  bg_crest_change_material_index : Nat
deriving DecidableEq, Repr

/-- `MeshLod` of src/model.rs. -/
structure MeshLod where
  mesh_index : Nat
  mesh_count : Nat
  model_lod_range : Nat
  texture_lod_range : Nat
  water_mesh_index : Nat
  water_mesh_count : Nat
  shadow_mesh_index : Nat
  shadow_mesh_count : Nat
  terrain_shadow_mesh_count : Nat
  terrain_shadow_mesh_index : Nat
  vertical_fog_mesh_index : Nat
  vertical_fog_mesh_count : Nat
  edge_geometry_size : Nat
  edge_geometry_data_offset : Nat
  polygon_count : Nat
  vertex_buffer_size : Nat
  index_buffer_size : Nat
  vertex_data_offset : Nat
  index_data_offset : Nat
deriving DecidableEq, Repr

instance : Inhabited MeshLod :=
  ⟨⟨0, 0, 0, 0, 0, 0, 0, 0, 0, 0, 0, 0, 0, 0, 0, 0, 0, 0, 0⟩⟩

/-- `Mesh` of src/model.rs. -/
structure Mesh where
  vertex_count : Nat
  index_count : Nat
  material_index : Nat
  submesh_index : Nat
  submesh_count : Nat
  bone_table_index : Nat
  start_index : Nat
  vertex_buffer_offsets : List Nat
  vertex_buffer_strides : List Nat
  vertex_stream_count : Nat
deriving DecidableEq, Repr

instance : Inhabited Mesh := ⟨⟨0, 0, 0, 0, 0, 0, 0, [0, 0, 0], [0, 0, 0], 0⟩⟩

/-- `Submesh` of src/model.rs (a record of the model data block). -/
structure Submesh where
  index_offset : Nat
  index_count : Nat
  attribute_index_mask : Nat
  bone_start_index : Nat
  bone_count : Nat
deriving DecidableEq, Repr

instance : Inhabited Submesh := ⟨⟨0, 0, 0, 0, 0⟩⟩

/-- `BoneTable` of src/model.rs. -/
structure BoneTable where
  bone_indices : List Nat
  bone_count : Nat
deriving DecidableEq, Repr

/-- `BoundingBox` of src/model.rs (f32 lanes as bit patterns). -/
structure BoundingBox where
  min : List Nat
  max : List Nat
deriving DecidableEq, Repr

/-- `ElementId` of src/model.rs. -/
structure ElementId where
  element_id : Nat
  parent_bone_name : Nat
  translate : List Nat
  rotate : List Nat
deriving DecidableEq, Repr

/-- `ModelData` of src/model.rs. -/
structure ModelData where
  header : ModelHeader
  element_ids : List ElementId
  lods : List MeshLod
  meshes : List Mesh
  attribute_name_offsets : List Nat
  submeshes : List Submesh
  material_name_offsets : List Nat
  bone_name_offsets : List Nat
  bone_tables : List BoneTable
  submesh_bone_map_size : Nat
  submesh_bone_map : List Nat
  padding_amount : Nat
  bounding_box : BoundingBox
  model_bounding_box : BoundingBox
  water_bounding_box : BoundingBox
  vertical_fog_bounding_box : BoundingBox
  bone_bounding_boxes : List BoundingBox
deriving DecidableEq, Repr

/-- The in-memory `Vertex` of src/model.rs; each f32 lane is carried as its
32-bit pattern (`replace_vertices` and the claims only move vertices around,
they never compute with the float values). -/
structure Vertex where
  position : List Nat
  uv0 : List Nat
  uv1 : List Nat
  normal : List Nat
  bitangent : List Nat
  color : List Nat
  bone_weight : List Nat
  bone_id : List Nat
deriving DecidableEq, Repr

/-- The in-memory `SubMesh` of src/model.rs (the part-level record, distinct
from the on-disk `Submesh`). -/
structure SubMesh where
  submesh_index : Nat
  index_count : Nat
  index_offset : Nat
deriving DecidableEq, Repr

instance : Inhabited SubMesh := ⟨⟨0, 0, 0⟩⟩

/-- `Part` of src/model.rs (named `ModelPart` here: `Part` is already a
Mathlib name). -/
structure ModelPart where
  mesh_index : Nat
  vertices : List Vertex
  indices : List Nat
  material_index : Nat
  submeshes : List SubMesh
deriving DecidableEq, Repr

instance : Inhabited ModelPart := ⟨⟨0, [], [], 0, []⟩⟩

/-- `Lod` of src/model.rs. -/
structure Lod where
  parts : List ModelPart
deriving DecidableEq, Repr

instance : Inhabited Lod := ⟨⟨[]⟩⟩

/-- `MDL` of src/model.rs. -/
structure MDL where
  file_header : ModelFileHeader
  model_data : ModelData
  lods : List Lod
  affected_bone_names : List String
  material_names : List String
deriving DecidableEq, Repr

/-- `ModelFileHeader::calculate_stack_size` of src/model.rs:
`vertex_declaration_count as u32 * 136`. -/
def ModelFileHeader.calculate_stack_size (h : ModelFileHeader) : Nat :=
  w32 (h.vertex_declaration_count * 136)

/-- Rust `std::mem::size_of::<ModelFileHeader>()` on a 64-bit target: the
in-memory struct (12 bytes of u32 sizes, 4 of u16 counts, 48 of offset and
size arrays, 3 of flag bytes, 24 of Vec header) padded to alignment 8.
Note this is the in-memory size the source adds into the offset computation,
not the on-disk header size. -/
def sizeOfModelFileHeader : Nat := 96

/-- `ModelData::calculate_runtime_size` of src/model.rs (u32 arithmetic). -/
def ModelData.calculate_runtime_size (m : ModelData) : Nat :=
  w32 (2 + 2 + 4
    + m.header.string_size
    + 56
    + m.element_ids.length * 32
    + 3 * 60
    + m.meshes.length * 36
    + m.attribute_name_offsets.length * 4
    + m.header.terrain_shadow_mesh_count * 20
    + m.header.submesh_count * 16
    + m.header.terrain_shadow_submesh_count * 10
    + m.material_name_offsets.length * 4
    + m.bone_name_offsets.length * 4
    + m.bone_tables.length * 132
    + m.header.shape_count * 16
    + m.header.shape_mesh_count * 12
    + m.header.shape_value_count * 4
    + 4
    + m.submesh_bone_map.length * 2
    + 8
    + 4 * 32
    + m.header.bone_count * 32)

/-- The submesh-record update loop at the top of `MDL::replace_vertices`:
for each entry `i` of the replaced part whose index is inside the new
`submeshes` argument, copy index_offset and index_count into the model-data
submesh record it points at. -/
def subRecStep (newSubs : List SubMesh) (acc : List Submesh)
    (p : Nat × SubMesh) : List Submesh :=
  if p.1 < newSubs.length then
    let ns := newSubs.getD p.1 default
    let old := acc.getD p.2.submesh_index default
    acc.set p.2.submesh_index
      { old with index_offset := ns.index_offset, index_count := ns.index_count }
  else acc

def updSubmeshRecords (subs : List Submesh) (partSubs : List SubMesh)
    (newSubs : List SubMesh) : List Submesh :=
  partSubs.enum.foldl (subRecStep newSubs) subs

/-- The inner stream loop of the "update values" pass of
`MDL::replace_vertices`: assign each live stream offset the running vertex
offset and advance it by `vertex_count * stride` (u32 arithmetic). -/
def updateMeshStreams (mesh : Mesh) (vertex_offset : Nat) : Mesh × Nat :=
  let s := (List.range mesh.vertex_stream_count).foldl
    (fun (p : List Nat × Nat) i =>
      (p.1.set i p.2,
       w32 (p.2 + w32 (mesh.vertex_count * mesh.vertex_buffer_strides.getD i 0))))
    (mesh.vertex_buffer_offsets, vertex_offset)
  ({ mesh with vertex_buffer_offsets := s.1 }, s.2)

/-- The per-LOD body of the "update values" pass of `MDL::replace_vertices`:
walk the meshes of the LOD in order, assigning `start_index` from the running
index count and the stream offsets from the running vertex offset (both
reset to 0 at each LOD). -/
def meshValuesStep (st : List Mesh × Nat × Nat) (j : Nat) :
    List Mesh × Nat × Nat :=
  let ms := st.1
  let vo := st.2.1
  let ic := st.2.2
  let mesh := ms.getD j default
  let mesh1 := { mesh with start_index := ic }
  let ic1 := w32 (ic + mesh.index_count)
  let p := updateMeshStreams mesh1 vo
  (ms.set j p.1, p.2, ic1)

def updateLodMeshValues (meshes : List Mesh) (lod : MeshLod) : List Mesh :=
  ((List.range' lod.mesh_index lod.mesh_count).foldl meshValuesStep
    (meshes, 0, 0)).1

/-- The "update values" pass of `MDL::replace_vertices`: one per-LOD body for
each `i in 0..file_header.lod_count`, reading the LOD records of the model
data block. -/
def updateAllMeshValues (meshes : List Mesh) (mdLods : List MeshLod)
    (lodCount : Nat) : List Mesh :=
  (List.range lodCount).foldl
    (fun ms i => updateLodMeshValues ms (mdLods.getD i default)) meshes

/-- The total vertex-buffer and index-buffer byte counts of one LOD as
accumulated by the sizes pass of `MDL::replace_vertices` (u32 arithmetic):
per mesh, `vertex_count * (sum of live strides)` and `index_count * 2`. -/
def bufStep (meshes : List Mesh) (t : Nat × Nat) (j : Nat) : Nat × Nat :=
  let mesh := meshes.getD j default
  let total_vertex_stride :=
    (List.range mesh.vertex_stream_count).foldl
      (fun a i => w32 (a + mesh.vertex_buffer_strides.getD i 0)) 0
  (w32 (t.1 + w32 (mesh.vertex_count * total_vertex_stride)),
   w32 (t.2 + w32 (mesh.index_count * 2)))

def lodBufferTotals (meshes : List Mesh) (lod : MeshLod) : Nat × Nat :=
  (List.range' lod.mesh_index lod.mesh_count).foldl (bufStep meshes) (0, 0)

/-- The sizes pass of `MDL::replace_vertices` for one LOD record: store the
vertex total and the index total padded with `16 - total % 16` (0 when the
remainder is 0). -/
def updateLodSizes (meshes : List Mesh) (lod : MeshLod) : MeshLod :=
  let t := lodBufferTotals meshes lod
  let index_padding := if t.2 % 16 = 0 then 0 else 16 - t.2 % 16
  { lod with vertex_buffer_size := t.1, index_buffer_size := w32 (t.2 + index_padding) }

/-- The offsets pass of `MDL::replace_vertices`: thread the running vertex
offset through the LOD records, assigning `vertex_data_offset`, then
`index_data_offset` (also copied into the dummy edge geometry offset) at
`vertex_data_offset + vertex_buffer_size`, and advancing past
`index_buffer_size` (u32 arithmetic). -/
def chainLodOffsets (vertex_offset : Nat) : List MeshLod → List MeshLod
  | [] => []
  | lod :: rest =>
    let ido := w32 (vertex_offset + lod.vertex_buffer_size)
    let lod1 := { lod with vertex_data_offset := vertex_offset,
                           index_data_offset := ido,
                           edge_geometry_data_offset := ido }
    lod1 :: chainLodOffsets (w32 (ido + lod.index_buffer_size)) rest

/-- One mirror loop of `MDL::replace_vertices`: for `i in 0..n`, store
`get i` into slot `i` of a file-header array. -/
def mirrorInto (n : Nat) (get : Nat → Nat) (arr : List Nat) : List Nat :=
  (List.range n).foldl (fun a i => a.set i (get i)) arr

/-- `MDL::replace_vertices` of src/model.rs.  Out-of-range list indexing
(which panics in Rust) is modelled by no-op sets and default-valued reads;
the claims about this function restrict to in-range arguments. -/
def MDL.replace_vertices (m : MDL) (lod_index part_index : Nat)
    (vertices : List Vertex) (indices : List Nat)
    (submeshes : List SubMesh) : MDL :=
  let oldLod := m.lods.getD lod_index default
  let oldPart := oldLod.parts.getD part_index default
  let newPart := { oldPart with vertices := vertices, indices := indices }
  let lods' := m.lods.set lod_index { parts := oldLod.parts.set part_index newPart }
  let submeshes' := updSubmeshRecords m.model_data.submeshes oldPart.submeshes submeshes
  let mi := oldPart.mesh_index
  let meshTarget := m.model_data.meshes.getD mi default
  let meshes0 := m.model_data.meshes.set mi
    { meshTarget with vertex_count := w16 vertices.length,
                      index_count := w32 indices.length }
  let meshes1 := updateAllMeshValues meshes0 m.model_data.lods m.file_header.lod_count
  let lodsSized := m.model_data.lods.map (updateLodSizes meshes1)
  let stack' := m.file_header.calculate_stack_size
  let md1 := { m.model_data with meshes := meshes1, submeshes := submeshes',
                                 lods := lodsSized }
  let runtime' := md1.calculate_runtime_size
  let vo := w32 (runtime' + sizeOfModelFileHeader + stack')
  let lodsFinal := chainLodOffsets vo lodsSized
  let n := lods'.length
  let fh := m.file_header
  let fh' := { fh with
    stack_size := stack'
    runtime_size := runtime'
    vertex_buffer_size :=
      mirrorInto n (fun i => (lodsFinal.getD i default).vertex_buffer_size) fh.vertex_buffer_size
    vertex_offsets :=
      mirrorInto n (fun i => (lodsFinal.getD i default).vertex_data_offset) fh.vertex_offsets
    index_buffer_size :=
      mirrorInto n (fun i => (lodsFinal.getD i default).index_buffer_size) fh.index_buffer_size
    index_offsets :=
      mirrorInto n (fun i => (lodsFinal.getD i default).index_data_offset) fh.index_offsets }
  { file_header := fh'
    model_data := { md1 with lods := lodsFinal }
    lods := lods'
    affected_bone_names := m.affected_bone_names
    material_names := m.material_names }

/-- The mesh fields that `replace_vertices` never recomputes. -/
def Mesh.frameFields (msh : Mesh) : Nat × Nat × Nat × Nat × List Nat × Nat :=
  (msh.material_index, msh.submesh_index, msh.submesh_count,
   msh.bone_table_index, msh.vertex_buffer_strides, msh.vertex_stream_count)

/-- The LOD record fields that `replace_vertices` never recomputes (every
field except the two buffer sizes and the three data offsets). -/
def MeshLod.frameFields (lod : MeshLod) :
    Nat × Nat × Nat × Nat × Nat × Nat × Nat × Nat × Nat × Nat × Nat × Nat ×
      Nat × Nat :=
  (lod.mesh_index, lod.mesh_count, lod.model_lod_range, lod.texture_lod_range,
   lod.water_mesh_index, lod.water_mesh_count, lod.shadow_mesh_index,
   lod.shadow_mesh_count, lod.terrain_shadow_mesh_count,
   lod.terrain_shadow_mesh_index, lod.vertical_fog_mesh_index,
   lod.vertical_fog_mesh_count, lod.edge_geometry_size, lod.polygon_count)

/- ## Concrete instances used by the example theorems -/

/-- A trivial length-preserving decoder standing in for texpresso in
concrete evaluations. -/
def idDecompress : DecompressFn := fun _ _ _ _ dst => dst

/-- An 80-byte texture buffer whose header declares BC1 format with
dimensions 4 by 4 (attribute 0, depth 1, one mip, zero offsets). -/
def bc1Buffer : List Nat :=
  [0, 0, 0, 0, 0x20, 0x34, 0, 0, 4, 0, 4, 0, 1, 0, 1, 0] ++ List.replicate 64 0

/-- The parsed header of `bc1Buffer`. -/
def bc1Header : TexHeader :=
  { attribute_bits := 0
    format := TextureFormat.BC1
    width := 4
    height := 4
    depth := 1
    mip_levels := 1
    lod_offsets := [0, 0, 0]
    offset_to_surface := List.replicate 13 0 }

/-- The texture produced from `bc1Buffer` with the trivial decoder. -/
def bc1Texture : Texture :=
  { width := 4, height := 4, rgba := List.replicate 64 0 }

/-- The header of the `test_stack_size` unit test in src/model.rs, with the
given vertex declaration count. -/
def exampleHeader (count : Nat) : ModelFileHeader :=
  { version := 0
    stack_size := 0
    runtime_size := 0
    vertex_declaration_count := count
    material_count := 0
    vertex_offsets := [0, 0, 0]
    index_offsets := [0, 0, 0]
    vertex_buffer_size := [0, 0, 0]
    index_buffer_size := [0, 0, 0]
    lod_count := 0
    index_buffer_streaming_enabled := false
    has_edge_geometry := false
    vertex_declarations := [] }

/-- The base repository of the bundled test tree. -/
def ffxivRepository : Repository := { name := "ffxiv" }

/-- The two expansion repositories of the bundled test tree. -/
def ex1Repository : Repository := { name := "ex1" }

def ex2Repository : Repository := { name := "ex2" }

/-- A GameData over the bundled test tree layout (repositories ffxiv, ex1,
ex2 in sorted order), with an empty cache and oracles on which every read
fails. -/
def testGameData : GameData :=
  { game_directory := "game"
    repositories := [ffxivRepository, ex1Repository, ex2Repository]
    index_files := []
    index_oracle := fun _ => none
    dat_open := fun _ => false
    dat_read := fun _ _ => none }

/-- A vertex whose lanes are all zero. -/
def sampleVertex : Vertex :=
  { position := [0, 0, 0]
    uv0 := [0, 0]
    uv1 := [0, 0]
    normal := [0, 0, 0]
    bitangent := [0, 0, 0, 0]
    color := [0, 0, 0, 0]
    bone_weight := [0, 0, 0, 0]
    bone_id := [0, 0, 0, 0] }

/-- A one-mesh, one-stream mesh record for the concrete model. -/
def sampleMesh : Mesh :=
  { vertex_count := 0
    index_count := 0
    material_index := 0
    submesh_index := 0
    submesh_count := 1
    bone_table_index := 0
    start_index := 0
    vertex_buffer_offsets := [0, 0, 0]
    vertex_buffer_strides := [8, 0, 0]
    vertex_stream_count := 1 }

/-- A LOD record covering exactly `sampleMesh`. -/
def sampleMeshLod : MeshLod :=
  { mesh_index := 0
    mesh_count := 1
    model_lod_range := 0
    texture_lod_range := 0
    water_mesh_index := 0
    water_mesh_count := 0
    shadow_mesh_index := 0
    shadow_mesh_count := 0
    terrain_shadow_mesh_count := 0
    terrain_shadow_mesh_index := 0
    vertical_fog_mesh_index := 0
    vertical_fog_mesh_count := 0
    edge_geometry_size := 0
    edge_geometry_data_offset := 0
    polygon_count := 0
    vertex_buffer_size := 0
    index_buffer_size := 0
    vertex_data_offset := 0
    index_data_offset := 0 }

/-- A minimal model header for the concrete model. -/
def sampleModelHeader : ModelHeader :=
  { string_count := 0
    string_size := 0
    strings := []
    radius := 0
    mesh_count := 1
    attribute_count := 0
    submesh_count := 1
    material_count := 0
    bone_count := 0
    bone_table_count := 0
    shape_count := 0
    shape_mesh_count := 0
    shape_value_count := 0
    lod_count := 1
    flags1 := 0
    element_id_count := 0
    terrain_shadow_mesh_count := 0
    flags2 := 0
    model_clip_out_of_distance := 0
    shadow_clip_out_of_distance := 0
    terrain_shadow_submesh_count := 0
    bg_change_material_index := 0
    bg_crest_change_material_index := 0 }

/-- A model data block with one LOD record, one mesh and one submesh. -/
def sampleModelData : ModelData :=
  { header := sampleModelHeader
    element_ids := []
    lods := [sampleMeshLod]
    meshes := [sampleMesh]
    attribute_name_offsets := []
    submeshes := [{ index_offset := 0, index_count := 0,
                    attribute_index_mask := 0, bone_start_index := 0,
                    bone_count := 0 }]
    material_name_offsets := []
    bone_name_offsets := []
    bone_tables := []
    submesh_bone_map_size := 0
    submesh_bone_map := []
    padding_amount := 0
    bounding_box := { min := [0, 0, 0, 0], max := [0, 0, 0, 0] }
    model_bounding_box := { min := [0, 0, 0, 0], max := [0, 0, 0, 0] }
    water_bounding_box := { min := [0, 0, 0, 0], max := [0, 0, 0, 0] }
    vertical_fog_bounding_box := { min := [0, 0, 0, 0], max := [0, 0, 0, 0] }
    bone_bounding_boxes := [] }

/-- A file header consistent with the one-LOD concrete model. -/
def sampleFileHeader : ModelFileHeader :=
  { version := 0
    stack_size := 0
    runtime_size := 0
    vertex_declaration_count := 1
    material_count := 0
    vertex_offsets := [0, 0, 0]
    index_offsets := [0, 0, 0]
    vertex_buffer_size := [0, 0, 0]
    index_buffer_size := [0, 0, 0]
    lod_count := 1
    index_buffer_streaming_enabled := false
    has_edge_geometry := false
    vertex_declarations := [{ elements := [] }] }

/-- The single part of the concrete model. -/
def samplePart : ModelPart :=
  { mesh_index := 0
    vertices := []
    indices := []
    material_index := 0
    submeshes := [{ submesh_index := 0, index_count := 0, index_offset := 0 }] }

/-- A small concrete in-range model for evaluating `replace_vertices`. -/
def sampleMDL : MDL :=
  { file_header := sampleFileHeader
    model_data := sampleModelData
    lods := [{ parts := [samplePart] }]
    affected_bone_names := []
    material_names := [] }

/-- A repair file system on which everything about ffxiv succeeds and the
write of the ex1 version file fails. -/
def sampleRepairFS : RepairFS :=
  { removeFails := fun _ => false
    createFails := fun _ => false
    writeFails := fun n => n == "ex1"
    bck := fun _ => some "2013.01.01.0000.0000"
    ver := [] }

/-- A repair work list: restore ffxiv from scratch, then restore ex1 from
its backup. -/
def sampleRepairList : List (Repository × RepairAction) :=
  [(ffxivRepository, RepairAction.VersionFileMissing),
   (ex1Repository, RepairAction.VersionFileCanRestore)]

/- ## Helper lemmas -/

theorem w32_add_left (a b : Nat) : w32 (w32 a + b) = w32 (a + b) := by
  unfold w32; omega

theorem w32_add_right (a b : Nat) : w32 (a + w32 b) = w32 (a + b) := by
  unfold w32; omega

theorem w32_mod16 (a : Nat) : w32 a % 16 = a % 16 := by
  unfold w32; omega

theorem getD_set_self (l : List α) (n : Nat) (a d : α) (h : n < l.length) :
    (l.set n a).getD n d = a := by
  simp [List.getD, List.getElem?_set, h]

theorem getD_set_ne (l : List α) (n m : Nat) (a d : α) (h : n ≠ m) :
    (l.set n a).getD m d = l.getD m d := by
  simp [List.getD, List.getElem?_set, h]

theorem getD_map_of_lt (f : α → β) (l : List α) (i : Nat) (h : i < l.length)
    (d : β) (d2 : α) : (l.map f).getD i d = f (l.getD i d2) := by
  simp [List.getD, List.getElem?_map, List.getElem?_eq_getElem, h]

/-- The wrapped running addition of a fold equals the wrap of the plain sum. -/
theorem foldl_w32_add (f : Nat → Nat) (l : List Nat) :
    ∀ a : Nat, l.foldl (fun acc x => w32 (acc + w32 (f x))) (w32 a) =
      w32 (l.foldl (fun acc x => acc + f x) a) := by
  induction l with
  | nil => intro a; rfl
  | cons x xs ih =>
    intro a
    show xs.foldl _ (w32 (w32 a + w32 (f x))) = _
    rw [w32_add_left, w32_add_right, ih (a + f x)]
    rfl

/-- Same statement without the inner wrap on the summand. -/
theorem foldl_w32_add_plain (f : Nat → Nat) (l : List Nat) :
    ∀ a : Nat, l.foldl (fun acc x => w32 (acc + f x)) (w32 a) =
      w32 (l.foldl (fun acc x => acc + f x) a) := by
  induction l with
  | nil => intro a; rfl
  | cons x xs ih =>
    intro a
    show xs.foldl _ (w32 (w32 a + f x)) = _
    rw [w32_add_left, ih (a + f x)]
    rfl

theorem foldl_add_eq_sum_map (f : Nat → Nat) (l : List Nat) :
    ∀ a : Nat, l.foldl (fun acc x => acc + f x) a = a + (l.map f).sum := by
  induction l with
  | nil => intro a; simp
  | cons x xs ih => intro a; simp [ih, Nat.add_assoc]

/- ### chainLodOffsets -/

theorem chainLodOffsets_length (vo : Nat) (ls : List MeshLod) :
    (chainLodOffsets vo ls).length = ls.length := by
  induction ls generalizing vo with
  | nil => rfl
  | cons lod rest ih => simp [chainLodOffsets, ih]

/-- The offsets pass never changes the sizes nor the mesh range of a LOD
record. -/
theorem chainLodOffsets_preserve (vo : Nat) (ls : List MeshLod) (i : Nat) :
    ((chainLodOffsets vo ls).getD i default).vertex_buffer_size =
        (ls.getD i default).vertex_buffer_size ∧
    ((chainLodOffsets vo ls).getD i default).index_buffer_size =
        (ls.getD i default).index_buffer_size ∧
    ((chainLodOffsets vo ls).getD i default).mesh_index =
        (ls.getD i default).mesh_index ∧
    ((chainLodOffsets vo ls).getD i default).mesh_count =
        (ls.getD i default).mesh_count := by
  induction ls generalizing vo i with
  | nil => exact ⟨rfl, rfl, rfl, rfl⟩
  | cons lod rest ih =>
    cases i with
    | zero => exact ⟨rfl, rfl, rfl, rfl⟩
    | succ n => exact ih _ n

/-- The offsets pass never changes any LOD field outside the sizes and
offsets. -/
theorem chainLodOffsets_frame (vo : Nat) (ls : List MeshLod) (i : Nat) :
    ((chainLodOffsets vo ls).getD i default).frameFields =
      (ls.getD i default).frameFields := by
  induction ls generalizing vo i with
  | nil => rfl
  | cons lod rest ih =>
    cases i with
    | zero => rfl
    | succ n => exact ih _ n

theorem chainLodOffsets_head_vdo (vo : Nat) (lod : MeshLod) (rest : List MeshLod) :
    ((chainLodOffsets vo (lod :: rest)).getD 0 default).vertex_data_offset = vo := rfl

theorem chainLodOffsets_ido (vo : Nat) (ls : List MeshLod) :
    ∀ i, i < ls.length →
      ((chainLodOffsets vo ls).getD i default).index_data_offset =
        w32 (((chainLodOffsets vo ls).getD i default).vertex_data_offset +
          ((chainLodOffsets vo ls).getD i default).vertex_buffer_size) := by
  induction ls generalizing vo with
  | nil => intro i h; simp at h
  | cons lod rest ih =>
    intro i h
    cases i with
    | zero => rfl
    | succ n => exact ih _ n (by simpa using Nat.lt_of_succ_lt_succ h)

theorem chainLodOffsets_vdo_succ (vo : Nat) (ls : List MeshLod) :
    ∀ i, i + 1 < ls.length →
      ((chainLodOffsets vo ls).getD (i + 1) default).vertex_data_offset =
        w32 (((chainLodOffsets vo ls).getD i default).index_data_offset +
          ((chainLodOffsets vo ls).getD i default).index_buffer_size) := by
  induction ls generalizing vo with
  | nil => intro i h; simp at h
  | cons lod rest ih =>
    intro i h
    cases i with
    | zero =>
      cases rest with
      | nil => simp at h
      | cons lod2 rest2 => rfl
    | succ n =>
      exact ih _ n (by simpa using Nat.lt_of_succ_lt_succ h)

/- ### Buffer size totals -/

/-- The index component of the size fold, as a wrapped plain sum. -/
theorem bufStep_foldl_snd (meshes : List Mesh) (l : List Nat) :
    ∀ a b : Nat, (l.foldl (bufStep meshes) (a, w32 b)).2 =
      w32 (b + ((l.map fun j => (meshes.getD j default).index_count * 2)).sum) := by
  induction l with
  | nil => intro a b; simp [w32]
  | cons j rest ih =>
    intro a b
    show (rest.foldl (bufStep meshes) (bufStep meshes (a, w32 b) j)).2 = _
    have hsnd : (bufStep meshes (a, w32 b) j).2 =
        w32 (b + (meshes.getD j default).index_count * 2) := by
      show w32 (w32 b + w32 ((meshes.getD j default).index_count * 2)) = _
      rw [w32_add_left, w32_add_right]
    have hstep : bufStep meshes (a, w32 b) j =
        ((bufStep meshes (a, w32 b) j).1,
         w32 (b + (meshes.getD j default).index_count * 2)) := by
      rw [← hsnd]
    rw [hstep, ih _ (b + (meshes.getD j default).index_count * 2)]
    simp [Nat.add_assoc]

theorem lodBufferTotals_snd (meshes : List Mesh) (lod : MeshLod) :
    (lodBufferTotals meshes lod).2 =
      w32 (((List.range' lod.mesh_index lod.mesh_count).map
        fun j => (meshes.getD j default).index_count * 2).sum) := by
  unfold lodBufferTotals
  rw [show ((0 : Nat), (0 : Nat)) = ((0 : Nat), w32 0) from rfl,
    bufStep_foldl_snd meshes _ 0 0]
  simp

/-- The sizes pass stores the wrapped 16-byte padded index total. -/
theorem updateLodSizes_index_buffer (meshes : List Mesh) (lod : MeshLod) :
    (updateLodSizes meshes lod).index_buffer_size =
      w32 (padTo16 (((List.range' lod.mesh_index lod.mesh_count).map
        fun j => (meshes.getD j default).index_count * 2).sum)) := by
  have ht := lodBufferTotals_snd meshes lod
  simp only [updateLodSizes]
  rw [ht, w32_mod16]
  unfold padTo16
  by_cases h : ((List.range' lod.mesh_index lod.mesh_count).map
      fun j => (meshes.getD j default).index_count * 2).sum % 16 = 0
  · rw [if_pos h, if_pos h, Nat.add_zero]
    unfold w32
    omega
  · rw [if_neg h, if_neg h, w32_add_left]

theorem updateLodSizes_preserve (meshes : List Mesh) (lod : MeshLod) :
    (updateLodSizes meshes lod).mesh_index = lod.mesh_index ∧
    (updateLodSizes meshes lod).mesh_count = lod.mesh_count := ⟨rfl, rfl⟩

/- ### mirrorInto -/

theorem mirrorInto_length (n : Nat) (get : Nat → Nat) (arr : List Nat) :
    (mirrorInto n get arr).length = arr.length := by
  unfold mirrorInto
  induction n with
  | zero => rfl
  | succ k ih =>
    rw [List.range_succ, List.foldl_append]
    simpa using ih

theorem mirrorInto_getD (n : Nat) (get : Nat → Nat) (arr : List Nat) :
    ∀ i, i < n → i < arr.length → (mirrorInto n get arr).getD i 0 = get i := by
  induction n with
  | zero => intro i h; omega
  | succ k ih =>
    intro i hi harr
    have hm : mirrorInto (k + 1) get arr = (mirrorInto k get arr).set k (get k) := by
      unfold mirrorInto
      rw [List.range_succ, List.foldl_append]
      rfl
    rw [hm]
    by_cases hik : i = k
    · subst hik
      exact getD_set_self _ _ _ _ (by rw [mirrorInto_length]; exact harr)
    · rw [getD_set_ne _ _ _ _ _ (fun h => hik h.symm)]
      exact ih i (by omega) harr

/- ### Mesh frame fields -/

theorem frameFields_set (ms : List Mesh) (j : Nat) (m2 : Mesh)
    (hm2 : m2.frameFields = (ms.getD j default).frameFields) (k : Nat) :
    ((ms.set j m2).getD k default).frameFields = (ms.getD k default).frameFields := by
  by_cases hkj : j = k
  · subst hkj
    by_cases hj : j < ms.length
    · rw [getD_set_self _ _ _ _ hj, hm2]
    · rw [List.set_eq_of_length_le (by omega)]
  · rw [getD_set_ne _ _ _ _ _ hkj]

theorem meshValuesStep_frame (st : List Mesh × Nat × Nat) (j k : Nat) :
    (((meshValuesStep st j).1).getD k default).frameFields =
      ((st.1.getD k default).frameFields) := by
  apply frameFields_set
  rfl

theorem foldl_meshValuesStep_frame (l : List Nat) :
    ∀ (st : List Mesh × Nat × Nat) (k : Nat),
      (((l.foldl meshValuesStep st).1).getD k default).frameFields =
        (st.1.getD k default).frameFields := by
  induction l with
  | nil => intro st k; rfl
  | cons j rest ih =>
    intro st k
    show (((rest.foldl meshValuesStep (meshValuesStep st j)).1).getD k default).frameFields = _
    rw [ih (meshValuesStep st j) k, meshValuesStep_frame]

theorem updateLodMeshValues_frame (meshes : List Mesh) (lod : MeshLod) (k : Nat) :
    ((updateLodMeshValues meshes lod).getD k default).frameFields =
      ((meshes.getD k default).frameFields) := by
  unfold updateLodMeshValues
  exact foldl_meshValuesStep_frame _ (meshes, 0, 0) k

theorem updateAllMeshValues_frame (meshes : List Mesh) (mdLods : List MeshLod)
    (lodCount : Nat) (k : Nat) :
    ((updateAllMeshValues meshes mdLods lodCount).getD k default).frameFields =
      ((meshes.getD k default).frameFields) := by
  unfold updateAllMeshValues
  generalize List.range lodCount = l
  induction l generalizing meshes with
  | nil => rfl
  | cons i rest ih =>
    show (((rest.foldl _ (updateLodMeshValues meshes (mdLods.getD i default)))).getD
      k default).frameFields = _
    rw [ih (updateLodMeshValues meshes (mdLods.getD i default)),
      updateLodMeshValues_frame]

/- ### Submesh record frame -/

theorem subRecStep_foldl_frame (newSubs : List SubMesh) (k : Nat) :
    ∀ (partSubs : List SubMesh) (n : Nat) (subs : List Submesh),
      (∀ i, i < partSubs.length → n + i < newSubs.length →
        (partSubs.getD i default).submesh_index ≠ k) →
      ((List.enumFrom n partSubs).foldl (subRecStep newSubs) subs).getD k default =
        subs.getD k default := by
  intro partSubs
  induction partSubs with
  | nil => intro n subs _; rfl
  | cons sm rest ih =>
    intro n subs hyp
    show ((List.enumFrom (n + 1) rest).foldl (subRecStep newSubs)
      (subRecStep newSubs subs (n, sm))).getD k default = _
    rw [ih (n + 1) (subRecStep newSubs subs (n, sm))
      (fun i hi hlen => hyp (i + 1) (by simpa using hi) (by omega))]
    unfold subRecStep
    by_cases hn : n < newSubs.length
    · rw [if_pos hn]
      exact getD_set_ne _ _ _ _ _ (hyp 0 (by simp) (by omega))
    · rw [if_neg hn]

theorem updSubmeshRecords_frame (subs : List Submesh) (partSubs newSubs : List SubMesh)
    (k : Nat)
    (hyp : ∀ i, i < partSubs.length → i < newSubs.length →
      (partSubs.getD i default).submesh_index ≠ k) :
    (updSubmeshRecords subs partSubs newSubs).getD k default = subs.getD k default := by
  unfold updSubmeshRecords
  have henum : partSubs.enum = List.enumFrom 0 partSubs := rfl
  rw [henum]
  exact subRecStep_foldl_frame newSubs k partSubs 0 subs
    (fun i hi hlen => hyp i hi (by simpa using hlen))

/- ### Path parsing -/

/-- When the first token is neither a loaded repository name nor a category
name, the parse yields none (shared by the claims about `parse` and about
the panic behaviour of `exists`/`extract`). -/
theorem parse_none_of_unknown_token (g : GameData) (path : String)
    (hnorep : ∀ r ∈ g.repositories, r.name ≠ (splitPath path).getD 0 "")
    (hnocat : string_to_category ((splitPath path).getD 0 "") = none) :
    g.parse_repository_category path = none := by
  unfold GameData.parse_repository_category
  have hfind : g.repositories.find?
      (fun r => r.name == (splitPath path).getD 0 "") = none := by
    rw [List.find?_eq_none]
    intro r hr
    simpa using hnorep r hr
  by_cases hlen : (splitPath path).length < 2
  · rw [if_pos hlen]
  · rw [if_neg hlen, hfind, hnocat]
    rfl

/- ### Repair lemmas -/

theorem find?_filter_ne (l : List (String × String)) (name other : String)
    (h : other ≠ name) :
    (l.filter (fun p => p.1 ≠ other)).find? (fun p => p.1 == name) =
      l.find? (fun p => p.1 == name) := by
  induction l with
  | nil => rfl
  | cons x xs ih =>
    rw [List.filter_cons]
    by_cases hdrop : x.1 = other
    · rw [if_neg (by simp [hdrop])]
      rw [ih, List.find?_cons_of_neg]
      simp only [beq_iff_eq]
      rw [hdrop]
      exact fun he => h he
    · rw [if_pos (by simpa using hdrop)]
      by_cases hx : x.1 = name
      · rw [List.find?_cons_of_pos _ (by simpa using hx),
          List.find?_cons_of_pos _ (by simpa using hx)]
      · rw [List.find?_cons_of_neg _ (by simpa using hx),
          List.find?_cons_of_neg _ (by simpa using hx), ih]

/-- A failing `repairOne` reports exactly the repository it was processing. -/
theorem repairOne_error_eq (fs : RepairFS) (r : Repository) (a : RepairAction)
    (e : Repository) (fs2 : RepairFS)
    (h : repairOne fs r a = (Except.error e, fs2)) : e = r := by
  unfold repairOne at h
  cases a with
  | VersionFileMissing =>
    simp only [] at h
    rcases h1 : fs.removeDirAll r.name with _ | fs1 <;> rw [h1] at h <;>
      simp only [] at h
    · injection h with ha hb; injection ha with hc; exact hc.symm
    · rcases h2 : fs1.createDirAll r.name with _ | fsx <;> rw [h2] at h <;>
        simp only [] at h
      · injection h with ha hb; injection ha with hc; exact hc.symm
      · rcases h3 : fsx.writeVer r.name earliestVersion with _ | fs3 <;>
          rw [h3] at h <;> simp only [] at h
        · injection h with ha hb; injection ha with hc; exact hc.symm
        · injection h with ha hb; injection ha
  | VersionFileCanRestore =>
    simp only [] at h
    rcases h1 : fs.bck r.name with _ | v <;> rw [h1] at h <;> simp only [] at h
    · injection h with ha hb; injection ha with hc; exact hc.symm
    · rcases h2 : fs.writeVer r.name v with _ | fs1 <;> rw [h2] at h <;>
        simp only [] at h
      · injection h with ha hb; injection ha with hc; exact hc.symm
      · injection h with ha hb; injection ha

/-- A successful `repairOne` leaves the version file of its repository
written. -/
theorem repairOne_ok_hasVer (fs : RepairFS) (r : Repository) (a : RepairAction)
    (fs2 : RepairFS) (h : repairOne fs r a = (Except.ok (), fs2)) :
    fs2.hasVer r.name := by
  have hwrite : ∀ (fsx : RepairFS) (c : String) (fsy : RepairFS),
      fsx.writeVer r.name c = some fsy → fsy.hasVer r.name := by
    intro fsx c fsy hw
    unfold RepairFS.writeVer at hw
    by_cases hf : fsx.writeFails r.name
    · rw [if_pos hf] at hw; cases hw
    · rw [if_neg hf] at hw
      cases hw
      exact ⟨c, by simp [List.find?]⟩
  unfold repairOne at h
  cases a with
  | VersionFileMissing =>
    simp only [] at h
    rcases h1 : fs.removeDirAll r.name with _ | fs1 <;> rw [h1] at h <;>
      simp only [] at h
    · injection h with ha hb; injection ha
    · rcases h2 : fs1.createDirAll r.name with _ | fsx <;> rw [h2] at h <;>
        simp only [] at h
      · injection h with ha hb; injection ha
      · rcases h3 : fsx.writeVer r.name earliestVersion with _ | fs3 <;>
          rw [h3] at h <;> simp only [] at h
        · injection h with ha hb; injection ha
        · injection h with ha hb
          subst hb
          exact hwrite _ _ _ h3
  | VersionFileCanRestore =>
    simp only [] at h
    rcases h1 : fs.bck r.name with _ | v <;> rw [h1] at h <;> simp only [] at h
    · injection h with ha hb; injection ha
    · rcases h2 : fs.writeVer r.name v with _ | fs1 <;> rw [h2] at h <;>
        simp only [] at h
      · injection h with ha hb; injection ha
      · injection h with ha hb
        subst hb
        exact hwrite _ _ _ h2

/-- `repairOne` on a differently named repository does not disturb the
version file of `name`, whether it succeeds or fails. -/
theorem repairOne_preserves_find (fs : RepairFS) (r : Repository)
    (a : RepairAction) (name : String) (hne : r.name ≠ name) :
    ((repairOne fs r a).2).ver.find? (fun q => q.1 == name) =
      fs.ver.find? (fun q => q.1 == name) := by
  have hrm : ∀ (fsx fsy : RepairFS), fsx.removeDirAll r.name = some fsy →
      fsy.ver.find? (fun q => q.1 == name) = fsx.ver.find? (fun q => q.1 == name) := by
    intro fsx fsy hx
    unfold RepairFS.removeDirAll at hx
    by_cases hf : fsx.removeFails r.name
    · rw [if_pos hf] at hx; cases hx
    · rw [if_neg hf] at hx; cases hx; exact find?_filter_ne _ _ _ hne
  have hcr : ∀ (fsx fsy : RepairFS), fsx.createDirAll r.name = some fsy →
      fsy.ver = fsx.ver := by
    intro fsx fsy hx
    unfold RepairFS.createDirAll at hx
    by_cases hf : fsx.createFails r.name
    · rw [if_pos hf] at hx; cases hx
    · rw [if_neg hf] at hx; cases hx; rfl
  have hwr : ∀ (fsx : RepairFS) (c : String) (fsy : RepairFS),
      fsx.writeVer r.name c = some fsy →
      fsy.ver.find? (fun q => q.1 == name) = fsx.ver.find? (fun q => q.1 == name) := by
    intro fsx c fsy hx
    unfold RepairFS.writeVer at hx
    by_cases hf : fsx.writeFails r.name
    · rw [if_pos hf] at hx; cases hx
    · rw [if_neg hf] at hx
      cases hx
      show List.find? _ ((r.name, c) :: _) = _
      rw [List.find?_cons_of_neg _ (by simpa using hne)]
      exact find?_filter_ne _ _ _ hne
  unfold repairOne
  cases a with
  | VersionFileMissing =>
    simp only []
    rcases h1 : fs.removeDirAll r.name with _ | fs1
    · rfl
    · simp only []
      rcases h2 : fs1.createDirAll r.name with _ | fsx
      · simp only []
        rw [hrm _ _ h1]
      · simp only []
        rcases h3 : fsx.writeVer r.name earliestVersion with _ | fs3
        · simp only []
          rw [hcr _ _ h2, hrm _ _ h1]
        · simp only []
          rw [hwr _ _ _ h3, hcr _ _ h2, hrm _ _ h1]
  | VersionFileCanRestore =>
    simp only []
    rcases h1 : fs.bck r.name with _ | v
    · rfl
    · simp only []
      rcases h2 : fs.writeVer r.name v with _ | fs1
      · simp only []
      · simp only []
        rw [hwr _ _ _ h2]

/-- Processing a list of repositories whose names all differ from `name`
does not disturb the version file of `name`. -/
theorem perform_repair_preserves_find (l : List (Repository × RepairAction)) :
    ∀ (fs : RepairFS) (name : String),
      (∀ p ∈ l, p.1.name ≠ name) →
      ((perform_repair fs l).2).ver.find? (fun q => q.1 == name) =
        fs.ver.find? (fun q => q.1 == name) := by
  induction l with
  | nil => intro fs name _; rfl
  | cons x rest ih =>
    obtain ⟨r, a⟩ := x
    intro fs name hall
    have hx : r.name ≠ name := hall (r, a) (by simp)
    have hpre := repairOne_preserves_find fs r a name hx
    simp only [perform_repair]
    split
    next u fs1 hro =>
      rw [ih fs1 name (fun p hp => hall p (List.mem_cons_of_mem _ hp))]
      rw [hro] at hpre
      exact hpre
    next e fs1 hro =>
      rw [hro] at hpre
      exact hpre

/- ## Claim theorems -/

/-- C1: the spec requires `read(buf); write()` to reproduce `buf` byte for
byte (padding zeroed aside).  The code cannot satisfy this: for a vertex
element with usage Position and type Half4, `MDL::from_existing` decodes 8
bytes (`read_half4`) while `MDL::write_to_buffer` emits 16 bytes
(`write_single4` on the padded position), so re-serialising a model whose
declaration contains a Position/Half4 element (the common case) overwrites
the 8 bytes following the position slot and cannot be byte-identical. -/
theorem mdl_position_half4_write_read_size_mismatch :
    readElementSize VertexUsage.Position VertexType.Half4 = some 8 ∧
    writeElementSize VertexUsage.Position VertexType.Half4 = some 16 ∧
    writeElementSize VertexUsage.Position VertexType.Half4 ≠
      readElementSize VertexUsage.Position VertexType.Half4 ∧
    writeElementSize VertexUsage.Normal VertexType.Half4 =
      readElementSize VertexUsage.Normal VertexType.Half4 := by
  refine ⟨rfl, rfl, by decide, rfl⟩

/-- C3: `calculate_stack_size` is `vertex_declaration_count * 136` (the u16
field makes the u32 product exact), and evaluates to 816 and 272 on the two
headers of the `test_stack_size` unit test. -/
theorem calculate_stack_size_spec :
    (∀ h : ModelFileHeader, h.vertex_declaration_count < 65536 →
      h.calculate_stack_size = h.vertex_declaration_count * 136) ∧
    (exampleHeader 6).calculate_stack_size = 816 ∧
    (exampleHeader 2).calculate_stack_size = 272 := by
  refine ⟨?_, by decide, by decide⟩
  intro h hlt
  unfold ModelFileHeader.calculate_stack_size w32
  omega

/-- Witness for C3 at the concrete test header. -/
theorem calculate_stack_size_spec_witness :
    (exampleHeader 6).calculate_stack_size =
      (exampleHeader 6).vertex_declaration_count * 136 :=
  calculate_stack_size_spec.1 (exampleHeader 6) (by decide)

/-- C8: `build_equipment_path` produces the documented format string from
the race id and the slot abbreviation, the abbreviation and id tables are
the fixed ones, and the Hyur Midlander Male Body example evaluates to the
documented path. -/
theorem build_equipment_path_spec :
    (∀ (model_id : Nat) (race : Race) (subrace : Subrace) (gender : Gender)
        (slot : Slot) (race_id : Nat),
      get_race_id race subrace gender = some race_id →
      build_equipment_path model_id race subrace gender slot =
        some ("chara/equipment/e" ++ pad4 model_id ++ "/model/c" ++
          pad4 race_id ++ "e" ++ pad4 model_id ++ "_" ++
          get_slot_abbreviation slot ++ ".mdl")) ∧
    (get_slot_abbreviation Slot.Head = "met" ∧
     get_slot_abbreviation Slot.Hands = "glv" ∧
     get_slot_abbreviation Slot.Legs = "dwn" ∧
     get_slot_abbreviation Slot.Feet = "sho" ∧
     get_slot_abbreviation Slot.Body = "top" ∧
     get_slot_abbreviation Slot.Earring = "ear" ∧
     get_slot_abbreviation Slot.Neck = "nek" ∧
     get_slot_abbreviation Slot.Rings = "rir" ∧
     get_slot_abbreviation Slot.Wrists = "wrs") ∧
    (get_slot_from_id 3 = some Slot.Head ∧
     get_slot_from_id 5 = some Slot.Hands ∧
     get_slot_from_id 7 = some Slot.Legs ∧
     get_slot_from_id 8 = some Slot.Feet ∧
     get_slot_from_id 4 = some Slot.Body ∧
     get_slot_from_id 9 = some Slot.Earring ∧
     get_slot_from_id 10 = some Slot.Neck ∧
     get_slot_from_id 12 = some Slot.Rings ∧
     get_slot_from_id 11 = some Slot.Wrists) ∧
    build_equipment_path 0 Race.Hyur Subrace.Midlander Gender.Male Slot.Body =
      some "chara/equipment/e0000/model/c0101e0000_top.mdl" := by
  refine ⟨?_, by decide, by decide, by decide⟩
  intro model_id race subrace gender slot race_id h
  unfold build_equipment_path
  rw [h]
  rfl

/-- Witness for C8 at the documented example. -/
theorem build_equipment_path_spec_witness :
    build_equipment_path 0 Race.Hyur Subrace.Midlander Gender.Male Slot.Body =
      some ("chara/equipment/e" ++ pad4 0 ++ "/model/c" ++ pad4 101 ++ "e" ++
        pad4 0 ++ "_" ++ get_slot_abbreviation Slot.Body ++ ".mdl") :=
  build_equipment_path_spec.1 0 Race.Hyur Subrace.Midlander Gender.Male
    Slot.Body 101 (by decide)

/-- C6: `Texture::from_existing` is a total function into an Option — for
every buffer and every decoder it yields Some or None — and on garbage bytes
(too short for the header, or a format tag outside the enum, as random bytes
are with overwhelming probability) it returns None rather than diverging. -/
theorem texture_from_existing_total_none_on_garbage :
    (∀ (dec : DecompressFn) (b : List Nat),
      (∃ t, Texture.from_existing dec b = some t) ∨
        Texture.from_existing dec b = none) ∧
    (∀ (dec : DecompressFn) (b : List Nat),
      b.length < texHeaderSize ∨ textureFormatOfCode (u32At b 4) = none →
      Texture.from_existing dec b = none) := by
  constructor
  · intro dec b
    cases h : Texture.from_existing dec b with
    | none => exact Or.inr rfl
    | some t => exact Or.inl ⟨t, rfl⟩
  · intro dec b h
    unfold Texture.from_existing
    have hr : TexHeader.read b = none := by
      unfold TexHeader.read
      rcases h with h | h
      · rw [if_pos h]
      · by_cases hl : b.length < texHeaderSize
        · rw [if_pos hl]
        · rw [if_neg hl, h]
    rw [hr]

/-- Witness for C6 on the empty buffer. -/
theorem texture_from_existing_total_none_on_garbage_witness :
    Texture.from_existing idDecompress [] = none :=
  texture_from_existing_total_none_on_garbage.2 idDecompress []
    (Or.inl (by decide))

/-- C7: when the parsed header declares a BC format, a successful
`Texture::from_existing` yields an RGBA vector of exactly
`width * height * 4` bytes, for every length-preserving decoder (the
texpresso decoder writes into a fixed-size slice, hence is length
preserving). -/
theorem texture_bc_output_size (dec : DecompressFn)
    (hdec : ∀ fmt src w h dst, (dec fmt src w h dst).length = dst.length)
    (b : List Nat) (hd : TexHeader) (t : Texture)
    (hread : TexHeader.read b = some hd)
    (hfmt : hd.format = TextureFormat.BC1 ∨ hd.format = TextureFormat.BC3 ∨
      hd.format = TextureFormat.BC5)
    (hres : Texture.from_existing dec b = some t) :
    t.rgba.length = hd.width * hd.height * 4 := by
  unfold Texture.from_existing at hres
  rw [hread] at hres
  simp only [] at hres
  rcases hfmt with h | h | h <;> rw [h] at hres <;> simp only [] at hres <;>
    injection hres with h2 <;> rw [← h2] <;>
    simp only [] <;> rw [hdec, List.length_replicate]

/-- Witness for C7 on the concrete BC1 buffer. -/
theorem texture_bc_output_size_witness :
    bc1Texture.rgba.length = bc1Header.width * bc1Header.height * 4 :=
  texture_bc_output_size idDecompress (fun _ _ _ _ _ => rfl) bc1Buffer
    bc1Header bc1Texture (by decide) (Or.inl (by decide)) (by decide)

theorem find?_repos_none (g : GameData) (tok : String)
    (h : ∀ r ∈ g.repositories, r.name ≠ tok) :
    g.repositories.find? (fun r => r.name == tok) = none := by
  rw [List.find?_eq_none]
  intro r hr
  simpa using h r hr

/-- C4: path parsing picks the base repository and the category named by the
first token when that token is a category and no repository name; picks the
named repository and the category named by the second token when the first
token names a loaded repository; yields none when the first token is
neither; and on the test repositories the two documented examples evaluate
as documented. -/
theorem parse_repository_category_spec :
    (∀ (g : GameData) (path : String) (c : Category),
      0 < g.repositories.length →
      2 ≤ (splitPath path).length →
      string_to_category ((splitPath path).getD 0 "") = some c →
      (∀ r ∈ g.repositories, r.name ≠ (splitPath path).getD 0 "") →
      g.parse_repository_category path =
        some (g.repositories.getD 0 default, c)) ∧
    (∀ (g : GameData) (path : String) (r : Repository) (c : Category),
      2 ≤ (splitPath path).length →
      g.repositories.find?
        (fun r2 => r2.name == (splitPath path).getD 0 "") = some r →
      string_to_category ((splitPath path).getD 1 "") = some c →
      g.parse_repository_category path = some (r, c)) ∧
    (∀ (g : GameData) (path : String),
      (∀ r ∈ g.repositories, r.name ≠ (splitPath path).getD 0 "") →
      string_to_category ((splitPath path).getD 0 "") = none →
      g.parse_repository_category path = none) ∧
    testGameData.parse_repository_category "exd/root.exl" =
      some (ffxivRepository, Category.EXD) ∧
    testGameData.parse_repository_category "what/x.dat" = none := by
  refine ⟨?_, ?_, ?_, by decide, by decide⟩
  · intro g path c h0 hlen hcat hnorep
    unfold GameData.parse_repository_category
    rw [if_neg (by omega), find?_repos_none g _ hnorep]
    simp only []
    rw [hcat]
    rfl
  · intro g path r c hlen hfind hcat
    unfold GameData.parse_repository_category
    rw [if_neg (by omega), hfind]
    simp only []
    rw [hcat]
    rfl
  · intro g path hnorep hnocat
    exact parse_none_of_unknown_token g path hnorep hnocat

/-- Witness for C4: the base-repository branch at the documented example. -/
theorem parse_repository_category_spec_witness :
    testGameData.parse_repository_category "exd/root.exl" =
      some (testGameData.repositories.getD 0 default, Category.EXD) :=
  parse_repository_category_spec.1 testGameData "exd/root.exl" Category.EXD
    (by decide) (by decide) (by decide) (by decide)

/-- C9: on a path whose first token is neither a repository name nor a
category name, and likewise whenever the resolved index file can neither be
found in the cache nor read and parsed, both `GameData::exists` and
`GameData::extract` panic (the error branch of the embedding) instead of
returning false or None. -/
theorem gamedata_exists_extract_panic :
    (∀ (g : GameData) (path : String),
      (∀ r ∈ g.repositories, r.name ≠ (splitPath path).getD 0 "") →
      string_to_category ((splitPath path).getD 0 "") = none →
      (∃ e, g.existsFile path = Except.error e) ∧
        (∃ e, g.extract path = Except.error e)) ∧
    (∀ (g : GameData) (path : String) (repository : Repository)
        (category : Category),
      g.parse_repository_category path = some (repository, category) →
      g.cached_or_parsed_index (g.index_path_for repository category) = none →
      (∃ e, g.existsFile path = Except.error e) ∧
        (∃ e, g.extract path = Except.error e)) := by
  constructor
  · intro g path hnorep hnocat
    have hp := parse_none_of_unknown_token g path hnorep hnocat
    constructor
    · refine ⟨"called Option.unwrap on a None value", ?_⟩
      unfold GameData.existsFile
      rw [hp]
    · refine ⟨"called Option.unwrap on a None value", ?_⟩
      unfold GameData.extract
      rw [hp]
  · intro g path repository category hparse hcache
    constructor
    · refine ⟨"called Result.unwrap on an Err value", ?_⟩
      unfold GameData.existsFile
      rw [hparse]
      simp only []
      rw [hcache]
    · refine ⟨"called Result.unwrap on an Err value", ?_⟩
      unfold GameData.extract
      rw [hparse]
      simp only []
      rw [hcache]

/-- Witness for C9: the unknown-token panic on the documented bad path. -/
theorem gamedata_exists_extract_panic_witness :
    (∃ e, testGameData.existsFile "what/x.dat" = Except.error e) ∧
      (∃ e, testGameData.extract "what/x.dat" = Except.error e) :=
  gamedata_exists_extract_panic.1 testGameData "what/x.dat"
    (by decide) (by decide)

/-- C5: `perform_repair` processes the list in order; either every step
succeeds, the result is Ok and every listed repository has its version file
written in the final state, or there is a first failing repository: the
prefix before it fully succeeded, its own `repairOne` fails, the whole run
returns exactly that failure and state immediately, and every earlier
repository still has its version file (no rollback). -/
theorem perform_repair_transactional :
    ∀ (l : List (Repository × RepairAction)) (fs : RepairFS),
      (l.map fun p => p.1.name).Nodup →
      ((∃ fs2, perform_repair fs l = (Except.ok (), fs2) ∧
          ∀ i, i < l.length → fs2.hasVer ((l.getD i default).1.name)) ∨
       (∃ k fse, k < l.length ∧
          (∃ fsk, perform_repair fs (l.take k) = (Except.ok (), fsk) ∧
            repairOne fsk (l.getD k default).1 (l.getD k default).2 =
              (Except.error ((l.getD k default).1), fse)) ∧
          perform_repair fs l = (Except.error ((l.getD k default).1), fse) ∧
          ∀ i, i < k → fse.hasVer ((l.getD i default).1.name))) := by
  intro l
  induction l with
  | nil =>
    intro fs _
    exact Or.inl ⟨fs, rfl, fun i hi => absurd hi (by simp)⟩
  | cons x rest ih =>
    obtain ⟨r, a⟩ := x
    intro fs hnd
    have hnd1 : (r.name :: rest.map fun p => p.1.name).Nodup := by simpa using hnd
    have hnd2 := List.nodup_cons.mp hnd1
    have hnames : ∀ p ∈ rest, p.1.name ≠ r.name := by
      intro p hp heq
      exact hnd2.1 (List.mem_map.mpr ⟨p, hp, heq⟩)
    rcases hro : repairOne fs r a with ⟨res, fs1⟩
    cases res with
    | error e =>
      have her : e = r := repairOne_error_eq fs r a e fs1 hro
      subst her
      refine Or.inr ⟨0, fs1, by simp, ⟨fs, rfl, hro⟩, ?_,
        fun i hi => absurd hi (by omega)⟩
      simp only [perform_repair]
      rw [hro]
      rfl
    | ok u =>
      cases u
      have hstep : perform_repair fs ((r, a) :: rest) = perform_repair fs1 rest := by
        simp only [perform_repair]
        rw [hro]
      have hver1 : fs1.hasVer r.name := repairOne_ok_hasVer fs r a fs1 hro
      have hpres := perform_repair_preserves_find rest fs1 r.name hnames
      rcases ih fs1 hnd2.2 with ⟨fs2, hpr, hall⟩ |
        ⟨k, fse, hk, ⟨fsk, htake, hfail⟩, hperf, hearlier⟩
      · refine Or.inl ⟨fs2, by rw [hstep]; exact hpr, ?_⟩
        intro i hi
        cases i with
        | zero =>
          obtain ⟨c, hc⟩ := hver1
          refine ⟨c, ?_⟩
          have hh : ((perform_repair fs1 rest).2).ver.find?
              (fun q => q.1 == r.name) = some (r.name, c) := by
            rw [hpres]
            exact hc
          rw [hpr] at hh
          exact hh
        | succ n =>
          exact hall n (by simpa using Nat.lt_of_succ_lt_succ hi)
      · refine Or.inr ⟨k + 1, fse, by simpa using Nat.succ_lt_succ hk,
          ⟨fsk, ?_, hfail⟩, by rw [hstep]; exact hperf, ?_⟩
        · show perform_repair fs ((r, a) :: rest.take k) = _
          simp only [perform_repair]
          rw [hro]
          simp only []
          exact htake
        · intro i hi
          cases i with
          | zero =>
            obtain ⟨c, hc⟩ := hver1
            refine ⟨c, ?_⟩
            have hh : ((perform_repair fs1 rest).2).ver.find?
                (fun q => q.1 == r.name) = some (r.name, c) := by
              rw [hpres]
              exact hc
            rw [hperf] at hh
            exact hh
          | succ n =>
            exact hearlier n (by omega)

/-- Witness for C5: the concrete two-repository repair in which the second
write fails; the theorem instance is the full disjunction at that input. -/
theorem perform_repair_transactional_witness :
    (∃ fs2, perform_repair sampleRepairFS sampleRepairList = (Except.ok (), fs2) ∧
        ∀ i, i < sampleRepairList.length →
          fs2.hasVer ((sampleRepairList.getD i default).1.name)) ∨
    (∃ k fse, k < sampleRepairList.length ∧
        (∃ fsk, perform_repair sampleRepairFS (sampleRepairList.take k) =
            (Except.ok (), fsk) ∧
          repairOne fsk (sampleRepairList.getD k default).1
              (sampleRepairList.getD k default).2 =
            (Except.error ((sampleRepairList.getD k default).1), fse)) ∧
        perform_repair sampleRepairFS sampleRepairList =
          (Except.error ((sampleRepairList.getD k default).1), fse) ∧
        ∀ i, i < k → fse.hasVer ((sampleRepairList.getD i default).1.name)) :=
  perform_repair_transactional sampleRepairList sampleRepairFS (by decide)

/-- C2: after `replace_vertices`, every LOD record holds the 16-byte padded
index-buffer total of its meshes, the first LOD vertex data offset is the
header size plus the recomputed stack and runtime sizes, index offsets chain
from vertex offsets and sizes, subsequent vertex offsets chain from index
offsets and sizes, and the file header arrays mirror the LOD records
(u32 arithmetic throughout). -/
theorem replace_vertices_offsets_and_sizes (m : MDL) (li pi : Nat)
    (vs : List Vertex) (ids : List Nat) (ss : List SubMesh) (m2 : MDL)
    (hm2 : m2 = m.replace_vertices li pi vs ids ss)
    (h0 : 0 < m.model_data.lods.length)
    (hvo : m.file_header.vertex_offsets.length = 3)
    (hio : m.file_header.index_offsets.length = 3)
    (hvb : m.file_header.vertex_buffer_size.length = 3)
    (hib : m.file_header.index_buffer_size.length = 3)
    (hl3 : m.lods.length ≤ 3) :
    (∀ i, i < m2.model_data.lods.length →
      (m2.model_data.lods.getD i default).index_buffer_size =
        w32 (padTo16 (((List.range' (m2.model_data.lods.getD i default).mesh_index
            (m2.model_data.lods.getD i default).mesh_count).map
          fun j => (m2.model_data.meshes.getD j default).index_count * 2).sum))) ∧
    ((m2.model_data.lods.getD 0 default).vertex_data_offset =
      w32 (sizeOfModelFileHeader + m2.file_header.stack_size +
        m2.file_header.runtime_size)) ∧
    (∀ i, i < m2.model_data.lods.length →
      (m2.model_data.lods.getD i default).index_data_offset =
        w32 ((m2.model_data.lods.getD i default).vertex_data_offset +
          (m2.model_data.lods.getD i default).vertex_buffer_size)) ∧
    (∀ i, i + 1 < m2.model_data.lods.length →
      (m2.model_data.lods.getD (i + 1) default).vertex_data_offset =
        w32 ((m2.model_data.lods.getD i default).index_data_offset +
          (m2.model_data.lods.getD i default).index_buffer_size)) ∧
    (∀ i, i < m2.lods.length →
      m2.file_header.vertex_offsets.getD i 0 =
          (m2.model_data.lods.getD i default).vertex_data_offset ∧
      m2.file_header.index_offsets.getD i 0 =
          (m2.model_data.lods.getD i default).index_data_offset ∧
      m2.file_header.vertex_buffer_size.getD i 0 =
          (m2.model_data.lods.getD i default).vertex_buffer_size ∧
      m2.file_header.index_buffer_size.getD i 0 =
          (m2.model_data.lods.getD i default).index_buffer_size) := by
  subst hm2
  have h2 : (m.replace_vertices li pi vs ids ss).model_data.lods =
      chainLodOffsets
        (w32 ((m.replace_vertices li pi vs ids ss).file_header.runtime_size +
          sizeOfModelFileHeader +
          (m.replace_vertices li pi vs ids ss).file_header.stack_size))
        (m.model_data.lods.map
          (updateLodSizes (m.replace_vertices li pi vs ids ss).model_data.meshes)) := rfl
  have hLSlen : (m.model_data.lods.map
      (updateLodSizes (m.replace_vertices li pi vs ids ss).model_data.meshes)).length =
      m.model_data.lods.length := List.length_map _ _
  have hlen2 : (m.replace_vertices li pi vs ids ss).model_data.lods.length =
      m.model_data.lods.length := by
    rw [h2, chainLodOffsets_length, hLSlen]
  have hlodslen : (m.replace_vertices li pi vs ids ss).lods.length = m.lods.length := by
    show (m.lods.set li _).length = m.lods.length
    exact List.length_set m.lods li _
  refine ⟨?_, ?_, ?_, ?_, ?_⟩
  · intro i hi
    rw [hlen2] at hi
    rw [h2]
    obtain ⟨hpv, hpi2, hpmi, hpmc⟩ := chainLodOffsets_preserve _ _ i
    rw [hpi2, hpmi, hpmc]
    rw [getD_map_of_lt (updateLodSizes _) m.model_data.lods i hi default default]
    rw [updateLodSizes_index_buffer]
    rw [(updateLodSizes_preserve _ _).1, (updateLodSizes_preserve _ _).2]
  · have hne : (m.model_data.lods.map
        (updateLodSizes (m.replace_vertices li pi vs ids ss).model_data.meshes)) ≠ [] := by
      rw [← List.length_pos_iff_ne_nil, hLSlen]
      exact h0
    obtain ⟨lod0, rest, hcons⟩ := List.exists_cons_of_ne_nil hne
    rw [h2, hcons, chainLodOffsets_head_vdo]
    exact congrArg w32 (by omega)
  · intro i hi
    rw [hlen2] at hi
    rw [h2]
    exact chainLodOffsets_ido _ _ i (by rw [hLSlen]; exact hi)
  · intro i hi
    rw [hlen2] at hi
    rw [h2]
    exact chainLodOffsets_vdo_succ _ _ i (by rw [hLSlen]; exact hi)
  · intro i hi
    have hi3 : i < 3 := by
      rw [hlodslen] at hi
      omega
    have hmv : (m.replace_vertices li pi vs ids ss).file_header.vertex_offsets =
        mirrorInto (m.replace_vertices li pi vs ids ss).lods.length
          (fun k => (((m.replace_vertices li pi vs ids ss).model_data.lods).getD
            k default).vertex_data_offset)
          m.file_header.vertex_offsets := rfl
    have hmi : (m.replace_vertices li pi vs ids ss).file_header.index_offsets =
        mirrorInto (m.replace_vertices li pi vs ids ss).lods.length
          (fun k => (((m.replace_vertices li pi vs ids ss).model_data.lods).getD
            k default).index_data_offset)
          m.file_header.index_offsets := rfl
    have hmvb : (m.replace_vertices li pi vs ids ss).file_header.vertex_buffer_size =
        mirrorInto (m.replace_vertices li pi vs ids ss).lods.length
          (fun k => (((m.replace_vertices li pi vs ids ss).model_data.lods).getD
            k default).vertex_buffer_size)
          m.file_header.vertex_buffer_size := rfl
    have hmib : (m.replace_vertices li pi vs ids ss).file_header.index_buffer_size =
        mirrorInto (m.replace_vertices li pi vs ids ss).lods.length
          (fun k => (((m.replace_vertices li pi vs ids ss).model_data.lods).getD
            k default).index_buffer_size)
          m.file_header.index_buffer_size := rfl
    refine ⟨?_, ?_, ?_, ?_⟩
    · rw [hmv]
      exact mirrorInto_getD _ _ _ i hi (by rw [hvo]; exact hi3)
    · rw [hmi]
      exact mirrorInto_getD _ _ _ i hi (by rw [hio]; exact hi3)
    · rw [hmvb]
      exact mirrorInto_getD _ _ _ i hi (by rw [hvb]; exact hi3)
    · rw [hmib]
      exact mirrorInto_getD _ _ _ i hi (by rw [hib]; exact hi3)

/-- Witness for C2 on the concrete one-LOD model with a three-index
replacement. -/
theorem replace_vertices_offsets_and_sizes_witness :
    (∀ i, i < (sampleMDL.replace_vertices 0 0 [sampleVertex] [0, 1, 2] []).model_data.lods.length →
      (((sampleMDL.replace_vertices 0 0 [sampleVertex] [0, 1, 2] []).model_data.lods.getD
          i default)).index_buffer_size =
        w32 (padTo16 (((List.range'
            (((sampleMDL.replace_vertices 0 0 [sampleVertex] [0, 1, 2] []).model_data.lods.getD
              i default)).mesh_index
            (((sampleMDL.replace_vertices 0 0 [sampleVertex] [0, 1, 2] []).model_data.lods.getD
              i default)).mesh_count).map
          fun j => (((sampleMDL.replace_vertices 0 0 [sampleVertex] [0, 1, 2] []).model_data.meshes.getD
            j default)).index_count * 2).sum))) ∧
    ((((sampleMDL.replace_vertices 0 0 [sampleVertex] [0, 1, 2] []).model_data.lods.getD
        0 default)).vertex_data_offset =
      w32 (sizeOfModelFileHeader +
        (sampleMDL.replace_vertices 0 0 [sampleVertex] [0, 1, 2] []).file_header.stack_size +
        (sampleMDL.replace_vertices 0 0 [sampleVertex] [0, 1, 2] []).file_header.runtime_size)) ∧
    (∀ i, i < (sampleMDL.replace_vertices 0 0 [sampleVertex] [0, 1, 2] []).model_data.lods.length →
      (((sampleMDL.replace_vertices 0 0 [sampleVertex] [0, 1, 2] []).model_data.lods.getD
          i default)).index_data_offset =
        w32 ((((sampleMDL.replace_vertices 0 0 [sampleVertex] [0, 1, 2] []).model_data.lods.getD
            i default)).vertex_data_offset +
          (((sampleMDL.replace_vertices 0 0 [sampleVertex] [0, 1, 2] []).model_data.lods.getD
            i default)).vertex_buffer_size)) ∧
    (∀ i, i + 1 < (sampleMDL.replace_vertices 0 0 [sampleVertex] [0, 1, 2] []).model_data.lods.length →
      (((sampleMDL.replace_vertices 0 0 [sampleVertex] [0, 1, 2] []).model_data.lods.getD
          (i + 1) default)).vertex_data_offset =
        w32 ((((sampleMDL.replace_vertices 0 0 [sampleVertex] [0, 1, 2] []).model_data.lods.getD
            i default)).index_data_offset +
          (((sampleMDL.replace_vertices 0 0 [sampleVertex] [0, 1, 2] []).model_data.lods.getD
            i default)).index_buffer_size)) ∧
    (∀ i, i < (sampleMDL.replace_vertices 0 0 [sampleVertex] [0, 1, 2] []).lods.length →
      (sampleMDL.replace_vertices 0 0 [sampleVertex] [0, 1, 2] []).file_header.vertex_offsets.getD i 0 =
          (((sampleMDL.replace_vertices 0 0 [sampleVertex] [0, 1, 2] []).model_data.lods.getD
            i default)).vertex_data_offset ∧
      (sampleMDL.replace_vertices 0 0 [sampleVertex] [0, 1, 2] []).file_header.index_offsets.getD i 0 =
          (((sampleMDL.replace_vertices 0 0 [sampleVertex] [0, 1, 2] []).model_data.lods.getD
            i default)).index_data_offset ∧
      (sampleMDL.replace_vertices 0 0 [sampleVertex] [0, 1, 2] []).file_header.vertex_buffer_size.getD i 0 =
          (((sampleMDL.replace_vertices 0 0 [sampleVertex] [0, 1, 2] []).model_data.lods.getD
            i default)).vertex_buffer_size ∧
      (sampleMDL.replace_vertices 0 0 [sampleVertex] [0, 1, 2] []).file_header.index_buffer_size.getD i 0 =
          (((sampleMDL.replace_vertices 0 0 [sampleVertex] [0, 1, 2] []).model_data.lods.getD
            i default)).index_buffer_size) :=
  replace_vertices_offsets_and_sizes sampleMDL 0 0 [sampleVertex] [0, 1, 2] []
    (sampleMDL.replace_vertices 0 0 [sampleVertex] [0, 1, 2] []) rfl
    (by decide) (by decide) (by decide) (by decide) (by decide) (by decide)

theorem getD_of_length_le (l : List α) (i : Nat) (d : α) (h : l.length ≤ i) :
    l.getD i d = d := by
  simp [List.getD, List.getElem?_eq_none h]

/-- C10: `replace_vertices` modifies only the replaced part and the
recomputed counts, offsets and sizes.  Everything else is unchanged: every
other part keeps its vertices and indices; the bone and material name lists
and the whole model header (string pool included) are unchanged; so are all
untouched model-data components (element ids, attribute, material and bone
name offsets, bone tables, the submesh bone map and its size, the padding
amount and every bounding box); submesh records not addressed by the
replaced part are unchanged; every mesh record keeps its non-recomputed
fields; every LOD record keeps every field outside its sizes and offsets;
the file header keeps every field outside the recomputed sizes and arrays;
and the replaced part gets exactly the new vertices and indices while
keeping its other fields. -/
theorem replace_vertices_frame (m : MDL) (li pi : Nat)
    (vs : List Vertex) (ids : List Nat) (ss : List SubMesh) (m2 : MDL)
    (hm2 : m2 = m.replace_vertices li pi vs ids ss)
    (hli : li < m.lods.length)
    (hpi : pi < (m.lods.getD li default).parts.length) :
    (∀ l p, l ≠ li ∨ p ≠ pi →
      ((m2.lods.getD l default).parts.getD p default).vertices =
        ((m.lods.getD l default).parts.getD p default).vertices ∧
      ((m2.lods.getD l default).parts.getD p default).indices =
        ((m.lods.getD l default).parts.getD p default).indices) ∧
    m2.affected_bone_names = m.affected_bone_names ∧
    m2.material_names = m.material_names ∧
    m2.model_data.header = m.model_data.header ∧
    (m2.model_data.element_ids = m.model_data.element_ids ∧
     m2.model_data.attribute_name_offsets = m.model_data.attribute_name_offsets ∧
     m2.model_data.material_name_offsets = m.model_data.material_name_offsets ∧
     m2.model_data.bone_name_offsets = m.model_data.bone_name_offsets ∧
     m2.model_data.bone_tables = m.model_data.bone_tables ∧
     m2.model_data.submesh_bone_map_size = m.model_data.submesh_bone_map_size ∧
     m2.model_data.submesh_bone_map = m.model_data.submesh_bone_map ∧
     m2.model_data.padding_amount = m.model_data.padding_amount ∧
     m2.model_data.bounding_box = m.model_data.bounding_box ∧
     m2.model_data.model_bounding_box = m.model_data.model_bounding_box ∧
     m2.model_data.water_bounding_box = m.model_data.water_bounding_box ∧
     m2.model_data.vertical_fog_bounding_box =
       m.model_data.vertical_fog_bounding_box ∧
     m2.model_data.bone_bounding_boxes = m.model_data.bone_bounding_boxes) ∧
    (∀ k,
      (∀ i, i < ((m.lods.getD li default).parts.getD pi default).submeshes.length →
        i < ss.length →
        (((m.lods.getD li default).parts.getD pi default).submeshes.getD
          i default).submesh_index ≠ k) →
      m2.model_data.submeshes.getD k default =
        m.model_data.submeshes.getD k default) ∧
    (∀ j, (m2.model_data.meshes.getD j default).frameFields =
      (m.model_data.meshes.getD j default).frameFields) ∧
    (∀ i, (m2.model_data.lods.getD i default).frameFields =
      (m.model_data.lods.getD i default).frameFields) ∧
    (m2.file_header.version = m.file_header.version ∧
     m2.file_header.vertex_declaration_count =
       m.file_header.vertex_declaration_count ∧
     m2.file_header.material_count = m.file_header.material_count ∧
     m2.file_header.lod_count = m.file_header.lod_count ∧
     m2.file_header.index_buffer_streaming_enabled =
       m.file_header.index_buffer_streaming_enabled ∧
     m2.file_header.has_edge_geometry = m.file_header.has_edge_geometry ∧
     m2.file_header.vertex_declarations = m.file_header.vertex_declarations) ∧
    (((m2.lods.getD li default).parts.getD pi default).vertices = vs ∧
     ((m2.lods.getD li default).parts.getD pi default).indices = ids ∧
     ((m2.lods.getD li default).parts.getD pi default).mesh_index =
       ((m.lods.getD li default).parts.getD pi default).mesh_index ∧
     ((m2.lods.getD li default).parts.getD pi default).material_index =
       ((m.lods.getD li default).parts.getD pi default).material_index ∧
     ((m2.lods.getD li default).parts.getD pi default).submeshes =
       ((m.lods.getD li default).parts.getD pi default).submeshes) := by
  subst hm2
  have hlods : (m.replace_vertices li pi vs ids ss).lods =
      m.lods.set li { parts := (m.lods.getD li default).parts.set pi ({ (m.lods.getD li default).parts.getD pi default with vertices := vs, indices := ids }) } := rfl
  have hsubs : (m.replace_vertices li pi vs ids ss).model_data.submeshes =
      updSubmeshRecords m.model_data.submeshes
        ((m.lods.getD li default).parts.getD pi default).submeshes ss := rfl
  have hmeshes : (m.replace_vertices li pi vs ids ss).model_data.meshes =
      updateAllMeshValues
        (m.model_data.meshes.set
          ((m.lods.getD li default).parts.getD pi default).mesh_index
          ({ (m.model_data.meshes.getD
              ((m.lods.getD li default).parts.getD pi default).mesh_index default) with
              vertex_count := w16 vs.length, index_count := w32 ids.length }))
        m.model_data.lods m.file_header.lod_count := rfl
  have h2 : (m.replace_vertices li pi vs ids ss).model_data.lods =
      chainLodOffsets
        (w32 ((m.replace_vertices li pi vs ids ss).file_header.runtime_size +
          sizeOfModelFileHeader +
          (m.replace_vertices li pi vs ids ss).file_header.stack_size))
        (m.model_data.lods.map
          (updateLodSizes (m.replace_vertices li pi vs ids ss).model_data.meshes)) := rfl
  refine ⟨?_, rfl, rfl, rfl,
    ⟨rfl, rfl, rfl, rfl, rfl, rfl, rfl, rfl, rfl, rfl, rfl, rfl, rfl⟩,
    ?_, ?_, ?_, ⟨rfl, rfl, rfl, rfl, rfl, rfl, rfl⟩, ?_⟩
  · intro l p hne
    rw [hlods]
    rcases eq_or_ne l li with hl | hl
    · subst hl
      rcases hne with hne | hne
      · exact absurd rfl hne
      · rw [getD_set_self m.lods l _ _ hli]
        simp only []
        rw [getD_set_ne _ _ _ _ _ (Ne.symm hne)]
        exact ⟨rfl, rfl⟩
    · rw [getD_set_ne m.lods li l _ _ (Ne.symm hl)]
      exact ⟨rfl, rfl⟩
  · intro k hyp
    rw [hsubs]
    exact updSubmeshRecords_frame _ _ _ k hyp
  · intro j
    rw [hmeshes, updateAllMeshValues_frame]
    refine frameFields_set m.model_data.meshes _ _ ?_ j
    rfl
  · intro i
    by_cases hi : i < m.model_data.lods.length
    · rw [h2, chainLodOffsets_frame,
        getD_map_of_lt (updateLodSizes _) m.model_data.lods i hi default default]
      rfl
    · have hlen : (chainLodOffsets
          (w32 ((m.replace_vertices li pi vs ids ss).file_header.runtime_size +
            sizeOfModelFileHeader +
            (m.replace_vertices li pi vs ids ss).file_header.stack_size))
          (m.model_data.lods.map
            (updateLodSizes (m.replace_vertices li pi vs ids ss).model_data.meshes))).length ≤ i := by
        rw [chainLodOffsets_length, List.length_map]
        omega
      rw [h2, getD_of_length_le _ _ _ hlen,
        getD_of_length_le m.model_data.lods i default (by omega)]
  · rw [hlods, getD_set_self m.lods li _ _ hli]
    simp only []
    rw [getD_set_self _ pi _ _ hpi]
    exact ⟨rfl, rfl, rfl, rfl, rfl⟩

/-- Witness for C10 on the concrete one-LOD model. -/
theorem replace_vertices_frame_witness :
    (∀ l p, l ≠ 0 ∨ p ≠ 0 →
      (((sampleMDL.replace_vertices 0 0 [sampleVertex] [0, 1, 2] []).lods.getD
          l default).parts.getD p default).vertices =
        ((sampleMDL.lods.getD l default).parts.getD p default).vertices ∧
      (((sampleMDL.replace_vertices 0 0 [sampleVertex] [0, 1, 2] []).lods.getD
          l default).parts.getD p default).indices =
        ((sampleMDL.lods.getD l default).parts.getD p default).indices) ∧
    (sampleMDL.replace_vertices 0 0 [sampleVertex] [0, 1, 2] []).affected_bone_names =
      sampleMDL.affected_bone_names ∧
    (sampleMDL.replace_vertices 0 0 [sampleVertex] [0, 1, 2] []).material_names =
      sampleMDL.material_names ∧
    (sampleMDL.replace_vertices 0 0 [sampleVertex] [0, 1, 2] []).model_data.header =
      sampleMDL.model_data.header ∧
    ((sampleMDL.replace_vertices 0 0 [sampleVertex] [0, 1, 2] []).model_data.element_ids =
       sampleMDL.model_data.element_ids ∧
     (sampleMDL.replace_vertices 0 0 [sampleVertex] [0, 1, 2] []).model_data.attribute_name_offsets =
       sampleMDL.model_data.attribute_name_offsets ∧
     (sampleMDL.replace_vertices 0 0 [sampleVertex] [0, 1, 2] []).model_data.material_name_offsets =
       sampleMDL.model_data.material_name_offsets ∧
     (sampleMDL.replace_vertices 0 0 [sampleVertex] [0, 1, 2] []).model_data.bone_name_offsets =
       sampleMDL.model_data.bone_name_offsets ∧
     (sampleMDL.replace_vertices 0 0 [sampleVertex] [0, 1, 2] []).model_data.bone_tables =
       sampleMDL.model_data.bone_tables ∧
     (sampleMDL.replace_vertices 0 0 [sampleVertex] [0, 1, 2] []).model_data.submesh_bone_map_size =
       sampleMDL.model_data.submesh_bone_map_size ∧
     (sampleMDL.replace_vertices 0 0 [sampleVertex] [0, 1, 2] []).model_data.submesh_bone_map =
       sampleMDL.model_data.submesh_bone_map ∧
     (sampleMDL.replace_vertices 0 0 [sampleVertex] [0, 1, 2] []).model_data.padding_amount =
       sampleMDL.model_data.padding_amount ∧
     (sampleMDL.replace_vertices 0 0 [sampleVertex] [0, 1, 2] []).model_data.bounding_box =
       sampleMDL.model_data.bounding_box ∧
     (sampleMDL.replace_vertices 0 0 [sampleVertex] [0, 1, 2] []).model_data.model_bounding_box =
       sampleMDL.model_data.model_bounding_box ∧
     (sampleMDL.replace_vertices 0 0 [sampleVertex] [0, 1, 2] []).model_data.water_bounding_box =
       sampleMDL.model_data.water_bounding_box ∧
     (sampleMDL.replace_vertices 0 0 [sampleVertex] [0, 1, 2] []).model_data.vertical_fog_bounding_box =
       sampleMDL.model_data.vertical_fog_bounding_box ∧
     (sampleMDL.replace_vertices 0 0 [sampleVertex] [0, 1, 2] []).model_data.bone_bounding_boxes =
       sampleMDL.model_data.bone_bounding_boxes) ∧
    (∀ k,
      (∀ i, i < ((sampleMDL.lods.getD 0 default).parts.getD 0 default).submeshes.length →
        i < ([] : List SubMesh).length →
        (((sampleMDL.lods.getD 0 default).parts.getD 0 default).submeshes.getD
          i default).submesh_index ≠ k) →
      (sampleMDL.replace_vertices 0 0 [sampleVertex] [0, 1, 2] []).model_data.submeshes.getD
          k default =
        sampleMDL.model_data.submeshes.getD k default) ∧
    (∀ j, ((sampleMDL.replace_vertices 0 0 [sampleVertex] [0, 1, 2] []).model_data.meshes.getD
        j default).frameFields =
      (sampleMDL.model_data.meshes.getD j default).frameFields) ∧
    (∀ i, ((sampleMDL.replace_vertices 0 0 [sampleVertex] [0, 1, 2] []).model_data.lods.getD
        i default).frameFields =
      (sampleMDL.model_data.lods.getD i default).frameFields) ∧
    ((sampleMDL.replace_vertices 0 0 [sampleVertex] [0, 1, 2] []).file_header.version =
        sampleMDL.file_header.version ∧
     (sampleMDL.replace_vertices 0 0 [sampleVertex] [0, 1, 2] []).file_header.vertex_declaration_count =
        sampleMDL.file_header.vertex_declaration_count ∧
     (sampleMDL.replace_vertices 0 0 [sampleVertex] [0, 1, 2] []).file_header.material_count =
        sampleMDL.file_header.material_count ∧
     (sampleMDL.replace_vertices 0 0 [sampleVertex] [0, 1, 2] []).file_header.lod_count =
        sampleMDL.file_header.lod_count ∧
     (sampleMDL.replace_vertices 0 0 [sampleVertex] [0, 1, 2] []).file_header.index_buffer_streaming_enabled =
        sampleMDL.file_header.index_buffer_streaming_enabled ∧
     (sampleMDL.replace_vertices 0 0 [sampleVertex] [0, 1, 2] []).file_header.has_edge_geometry =
        sampleMDL.file_header.has_edge_geometry ∧
     (sampleMDL.replace_vertices 0 0 [sampleVertex] [0, 1, 2] []).file_header.vertex_declarations =
        sampleMDL.file_header.vertex_declarations) ∧
    ((((sampleMDL.replace_vertices 0 0 [sampleVertex] [0, 1, 2] []).lods.getD
        0 default).parts.getD 0 default).vertices = [sampleVertex] ∧
     (((sampleMDL.replace_vertices 0 0 [sampleVertex] [0, 1, 2] []).lods.getD
        0 default).parts.getD 0 default).indices = [0, 1, 2] ∧
     (((sampleMDL.replace_vertices 0 0 [sampleVertex] [0, 1, 2] []).lods.getD
        0 default).parts.getD 0 default).mesh_index =
       ((sampleMDL.lods.getD 0 default).parts.getD 0 default).mesh_index ∧
     (((sampleMDL.replace_vertices 0 0 [sampleVertex] [0, 1, 2] []).lods.getD
        0 default).parts.getD 0 default).material_index =
       ((sampleMDL.lods.getD 0 default).parts.getD 0 default).material_index ∧
     (((sampleMDL.replace_vertices 0 0 [sampleVertex] [0, 1, 2] []).lods.getD
        0 default).parts.getD 0 default).submeshes =
       ((sampleMDL.lods.getD 0 default).parts.getD 0 default).submeshes) :=
  replace_vertices_frame sampleMDL 0 0 [sampleVertex] [0, 1, 2] []
    (sampleMDL.replace_vertices 0 0 [sampleVertex] [0, 1, 2] []) rfl
    (by decide) (by decide)
